import Mathlib

/-!
# Verification of the Vittam loan-origination services

Shallow embedding of the business-rule layer of the `server/` package
(`services.py`, `document_service.py`, `document_verification_service.py`,
and the sanction tool in `main.py`) together with proofs about it.

Modelling conventions:
* Python `float` money/rate arithmetic is modelled with exact rationals `ℚ`;
  `round(x, 2)` is modelled as rounding `100*x` to the nearest integer.
* MongoDB collections are modelled as lists of records; `find_one` is the
  first record matching the filter, `update_one ... upsert=True` replaces the
  first matching record (or appends).
* Python dicts whose keys are only sometimes present are modelled as
  structures with `Option` fields (`none` = key absent).
* Wall-clock timestamps (`created_at`, `uploaded_at`, ...) are threaded as
  explicit `Nat` parameters; the age computation from `datetime.now()` is
  omitted since no rule reads it.
* The external vision classifier (declared out of scope by the spec) is an
  oracle parameter returning the parsed verdict structure.
-/

namespace Vittam

/-! ### Python string primitives

The Python `str` methods the services use, implemented structurally on the
character list so that concrete runs reduce inside proofs.  Python's
Unicode-aware `isalpha`/`isdigit`/`upper` are modelled by their ASCII
restrictions (every string the rules compare against is ASCII). -/

/-- `str.strip()`. -/
def pyStrip (s : String) : String :=
  ⟨((s.data.dropWhile Char.isWhitespace).reverse.dropWhile Char.isWhitespace).reverse⟩

/-- `str.replace(ch, "")` for a single-character pattern (the only form of
`replace` the code uses): drop every occurrence of the character. -/
def removeChar (ch : Char) (s : String) : String := ⟨s.data.filter (· ≠ ch)⟩

/-- `str.upper()`. -/
def pyUpper (s : String) : String := ⟨s.data.map Char.toUpper⟩

/-- `str.lower()`. -/
def pyLower (s : String) : String := ⟨s.data.map Char.toLower⟩

/-- `str.startswith(pre)`. -/
def pyStartsWith (s pre : String) : Bool := pre.data.isPrefixOf s.data

/-- `str[n:]`. -/
def pyDrop (s : String) (n : ℕ) : String := ⟨s.data.drop n⟩

/-- `len(str)`. -/
def pyLen (s : String) : ℕ := s.data.length

/-- `str[-n:]` (for `n ≤ len`). -/
def pyTakeRight (s : String) (n : ℕ) : String := ⟨s.data.drop (s.data.length - n)⟩

/-- `str.title()` for a single lowercase word. -/
def pyCapitalize (s : String) : String :=
  match s.data with
  | [] => ""
  | c :: cs => ⟨Char.toUpper c :: cs⟩

/-- `str.split(ch)` on a single-character separator. -/
def splitOnChar (ch : Char) : List Char → List (List Char)
  | [] => [[]]
  | c :: cs =>
    match splitOnChar ch cs with
    | [] => [[]]
    | g :: gs => if c = ch then [] :: g :: gs else (c :: g) :: gs

/-- A stable ascending sort (structural insertion sort): the model of a
Mongo `sort(key, 1)`, which is stable.  `le` must be a total preorder
test; an element is inserted before the first strictly-greater one. -/
def insertLe (le : α → α → Bool) (x : α) : List α → List α
  | [] => [x]
  | y :: ys => if le y x && !(le x y) then y :: insertLe le x ys else x :: y :: ys

/-- See `insertLe`. -/
def stableSortBy (le : α → α → Bool) : List α → List α
  | [] => []
  | x :: xs => insertLe le x (stableSortBy le xs)

/-- `round(x, 2)` from Python, on exact rationals: round to 2 decimal places.
(Python's float `round` is banker's rounding on binary floats; on the exact
values used in this development the two agree away from half-cent ties.) -/
def round2 (q : ℚ) : ℚ := (round (100 * q) : ℤ) / 100

/-- Result dict of `calculate_emi` (services.py:444).  The failure branch
returns only `success`/`message`; the numeric keys are absent (`none`). -/
structure EmiResult where
  success : Bool
  message : Option String
  loan_amount : Option ℚ
  tenure_months : Option ℤ
  interest_rate : Option ℚ
  emi : Option ℚ
  total_amount : Option ℚ
  total_interest : Option ℚ
deriving Repr, DecidableEq

/-- services.py:444 `calculate_emi`. -/
def calculate_emi (loan_amount : ℚ) (tenure_months : ℤ) (interest_rate : ℚ) :
    EmiResult :=
  if loan_amount ≤ 0 ∨ tenure_months ≤ 0 ∨ interest_rate ≤ 0 then
    { success := false, message := some "Invalid input parameters",
      loan_amount := none, tenure_months := none, interest_rate := none,
      emi := none, total_amount := none, total_interest := none }
  else
    let monthly_rate : ℚ := interest_rate / (12 * 100)
    let emi : ℚ := loan_amount * monthly_rate * (1 + monthly_rate) ^ tenure_months.toNat /
      ((1 + monthly_rate) ^ tenure_months.toNat - 1)
    let total_amount : ℚ := emi * tenure_months
    let total_interest : ℚ := total_amount - loan_amount
    { success := true, message := none,
      loan_amount := some loan_amount, tenure_months := some tenure_months,
      interest_rate := some interest_rate,
      emi := some (round2 emi),
      total_amount := some (round2 total_amount),
      total_interest := some (round2 total_interest) }

/-- services.py:29 `_normalize_phone`. -/
def normalizePhone (phone : String) : String :=
  let c := removeChar '-' (removeChar ' ' (pyStrip phone))
  if pyStartsWith c "+91" then pyDrop c 3
  else if pyStartsWith c "91" && pyLen c > 10 then pyDrop c 2
  else c

/-- services.py:40 `_format_phone_for_display`. -/
def formatPhoneForDisplay (phone : String) : String :=
  "+91" ++ normalizePhone phone

/-- A record of the `users` collection.  Fields the rules never read
(`city`, `email`, `current_loans`) are omitted; `Option` marks keys read
with `dict.get`. -/
structure User where
  _id : Nat
  phone : Option String
  name : Option String
  dob : Option String
  pre_approved_limit : Option ℚ
  salary : Option ℚ
deriving Repr, DecidableEq

/-- A record of the `kycs` collection. -/
structure Kyc where
  _id : Nat
  phone : Option String
  pan : Option String
  name : Option String
  dob : Option String
  address : Option String
  credit_score : Option ℤ
deriving Repr, DecidableEq

/-- A record of the `offer_template` collection.  The band fields are
required (a Mongo `$lte`/`$gte` filter never matches a missing field, and
every query here filters on them); `base_rate`, tenure and fee are read
with `dict.get` and may be absent. -/
structure OfferTemplate where
  name : Option String
  active : Bool
  min_credit_score : ℤ
  max_credit_score : ℤ
  min_amount : ℚ
  max_amount : ℚ
  min_tenure_months : Option ℤ
  max_tenure_months : Option ℤ
  base_rate : Option ℚ
  processing_fee_pct : Option ℚ
deriving Repr, DecidableEq

/-- The read-only reference stores (`users`, `kycs`, `offer_template`).
`find_one` is modelled as the first list element matching the filter. -/
structure Env where
  users : List User
  kycs : List Kyc
  offer_templates : List OfferTemplate
deriving Repr

/-- The dict built by services.py:46 `_build_customer_data`.
`credit_score : Option (Option ℤ)`: the outer `Option` records whether the
key was merged at all (a KYC record was found), the inner one its value —
the distinction matters because `check_eligibility` reads it with
`customer.get("credit_score", 0)`.  The clock-dependent `age` field is
omitted. -/
structure CustomerData where
  customer_id : String
  name : Option String
  dob : Option String
  pre_approved_limit : ℚ
  salary : Option ℚ
  pan : Option String
  credit_score : Option (Option ℤ)
  address : Option String
deriving Repr, DecidableEq

/-- services.py:46 `_build_customer_data` (for a found user). -/
def buildCustomerData (user : User) (kyc : Option Kyc) : CustomerData :=
  let phone := user.phone.getD ""
  { customer_id := if phone ≠ "" then normalizePhone phone else toString user._id
    name := user.name
    dob := match user.dob with
           | some d => some d
           | none => kyc.bind (·.dob)
    pre_approved_limit := user.pre_approved_limit.getD 0
    salary := user.salary
    pan := kyc.bind (·.pan)
    credit_score := kyc.map (·.credit_score)
    address := kyc.bind (·.address) }

/-- services.py:99 `get_customer_by_phone`. -/
def get_customer_by_phone (env : Env) (phone : String) : Option CustomerData :=
  let np := normalizePhone phone
  match env.users.find? (fun u => u.phone == some np) with
  | none => none
  | some u => some (buildCustomerData u (env.kycs.find? (fun k => k.phone == some np)))

/-- services.py:124 `get_customer_by_pan`.  In the KYC-only branch the
`pre_approved_limit`/`salary` keys are absent; they are modelled by the
values later `dict.get` calls default them to (`0` / `none`). -/
def get_customer_by_pan (env : Env) (pan : String) : Option CustomerData :=
  let panU := pyStrip (pyUpper pan)
  match env.kycs.find? (fun k => k.pan == some panU) with
  | none => none
  | some k =>
    let user := match k.phone with
                | some p => env.users.find? (fun u => u.phone == some (normalizePhone p))
                | none => none
    match user with
    | some u => some (buildCustomerData u (some k))
    | none => some
      { customer_id := match k.phone with
                       | some p => if p ≠ "" then p else toString k._id
                       | none => toString k._id
        name := k.name
        dob := k.dob
        pre_approved_limit := 0
        salary := none
        pan := k.pan
        credit_score := some k.credit_score
        address := k.address }

/-- services.py:172 `get_customer_by_id` (the id is a normalized phone). -/
def get_customer_by_id (env : Env) (customer_id : String) : Option CustomerData :=
  let np := normalizePhone customer_id
  match env.users.find? (fun u => u.phone == some np) with
  | none => none
  | some u => some (buildCustomerData u (env.kycs.find? (fun k => k.phone == some np)))

/-- Result dict shared by the identity/contact verifiers. -/
structure VerifyResult where
  verified : Bool
  message : String
  customer_id : Option String
  customer_name : Option String
  otp : Option String
deriving Repr, DecidableEq

/-- services.py:267 `verify_pan`: format check (10 chars, 5 alpha / 4 digit
/ 1 alpha) before any KYC lookup. -/
def verify_pan (env : Env) (pan : String) : VerifyResult :=
  let panU := pyStrip (pyUpper pan)
  if pyLen panU ≠ 10 then
    { verified := false,
      message := "Invalid PAN format. PAN should be 10 characters long.",
      customer_id := none, customer_name := none, otp := none }
  else if ¬((panU.data.take 5).all Char.isAlpha ∧
            ((panU.data.drop 5).take 4).all Char.isDigit ∧
            ((panU.data.drop 9).take 1).all Char.isAlpha) then
    { verified := false,
      message := "Invalid PAN format. Format should be: 5 letters, 4 digits, 1 letter.",
      customer_id := none, customer_name := none, otp := none }
  else
    match get_customer_by_pan env panU with
    | some c =>
      { verified := true, message := "PAN verified successfully",
        customer_id := some c.customer_id, customer_name := c.name, otp := none }
    | none =>
      { verified := false, message := "PAN not found in our database",
        customer_id := none, customer_name := none, otp := none }

/-- services.py:312 `verify_phone` (fixed test OTP). -/
def verify_phone (env : Env) (phone : String) : VerifyResult :=
  let np := normalizePhone phone
  let dp := formatPhoneForDisplay np
  match get_customer_by_phone env np with
  | some c =>
    { verified := true,
      message := s!"OTP sent to {dp}. OTP: 123456 (for testing)",
      customer_id := some c.customer_id, customer_name := c.name,
      otp := some "123456" }
  | none =>
    { verified := false,
      message := s!"Phone number {dp} not found in our database",
      customer_id := none, customer_name := none, otp := none }

/-- services.py:343 `verify_otp`: only the fixed test OTP "123456" is
accepted, and only for a phone that resolves to a customer. -/
def verify_otp (env : Env) (phone : String) (otp : String) : VerifyResult :=
  if otp = "123456" then
    match get_customer_by_phone env phone with
    | some c =>
      { verified := true, message := "Phone number verified successfully",
        customer_id := some c.customer_id, customer_name := none, otp := none }
    | none =>
      { verified := false, message := "Phone number not found in our database",
        customer_id := none, customer_name := none, otp := none }
  else
    { verified := false,
      message := "Invalid OTP. Please enter the correct OTP: 123456",
      customer_id := none, customer_name := none, otp := none }

/-- Result dict of services.py:375 `fetch_credit_score`. -/
structure CreditScoreResult where
  success : Bool
  message : String
  credit_score : Option ℤ
deriving Repr, DecidableEq

/-- services.py:375 `fetch_credit_score`. -/
def fetch_credit_score (env : Env) (customer_id : String) : CreditScoreResult :=
  let np := normalizePhone customer_id
  match ((env.kycs.find? (fun k => k.phone == some np)).bind (·.credit_score)) with
  | some s =>
    { success := true, message := s!"Credit score retrieved: {s}/900",
      credit_score := some s }
  | none =>
    if (get_customer_by_id env customer_id).isNone then
      { success := false, message := "Customer not found", credit_score := none }
    else
      { success := false, message := "Credit score not available", credit_score := none }

/-- The score-band part of the offer-template filters
(`active` + `min_credit_score ≤ S ≤ max_credit_score`). -/
def offerMatchesScore (o : OfferTemplate) (credit_score : ℤ) : Bool :=
  o.active && decide (o.min_credit_score ≤ credit_score)
           && decide (credit_score ≤ o.max_credit_score)

/-- The amount-band part of the offer-template filters. -/
def offerMatchesAmount (o : OfferTemplate) (loan_amount : ℚ) : Bool :=
  decide (o.min_amount ≤ loan_amount) && decide (loan_amount ≤ o.max_amount)

/-- services.py:478 `get_interest_rate`: template row if one matches and
carries a `base_rate`, otherwise the built-in score/amount rate table. -/
def get_interest_rate (env : Env) (credit_score : ℤ) (loan_amount : ℚ) : ℚ :=
  let offer := env.offer_templates.find?
    (fun o => offerMatchesScore o credit_score && offerMatchesAmount o loan_amount)
  match offer.bind (·.base_rate) with
  | some r => round2 r
  | none =>
    let range : ℚ × ℚ :=
      if credit_score ≥ 750 then (10.5, 12.0)       -- "excellent"
      else if credit_score ≥ 700 then (12.5, 14.5)  -- "good"
      else if credit_score ≥ 650 then (15.0, 18.0)  -- "fair"
      else (18.5, 24.0)                             -- "poor"
    let rate :=
      if loan_amount ≥ 1000000 then range.1
      else if loan_amount ≥ 500000 then (range.1 + range.2) / 2
      else range.2
    round2 rate

/-- Result dict of services.py:538 `check_eligibility`; keys that only some
branches emit are `Option`s. -/
structure EligibilityResult where
  eligible : Bool
  status : String
  message : String
  reason : Option String
  credit_score : Option ℤ
  pre_approved_limit : Option ℚ
  requested_amount : Option ℚ
  max_eligible : Option ℚ
  interest_rate : Option ℚ
  tenure_months : Option ℤ
  emi : Option ℚ
  salary : Option ℚ
  max_allowable_emi : Option ℚ
  approval_type : Option String
  requires_salary_slip : Option Bool
deriving Repr, DecidableEq

/-- All-absent field base for `EligibilityResult`. -/
def EligibilityResult.base : EligibilityResult :=
  { eligible := false, status := "", message := "", reason := none,
    credit_score := none, pre_approved_limit := none, requested_amount := none,
    max_eligible := none, interest_rate := none, tenure_months := none,
    emi := none, salary := none, max_allowable_emi := none,
    approval_type := none, requires_salary_slip := none }

/-- services.py:538 `check_eligibility`.  The result is `none` exactly when
the Python code would raise an uncaught exception: comparing a `None`
credit score with `<` (TypeError), or indexing `emi_result["emi"]` after a
failed EMI calculation (KeyError).  Python's `:,`/`:,.2f` thousands
formatting inside reason strings is abstracted to plain `toString`. -/
def check_eligibility (env : Env) (customer_id : String) (requested_amount : ℚ)
    (tenure_months : ℤ := 60) : Option EligibilityResult :=
  match get_customer_by_id env customer_id with
  | none => some { EligibilityResult.base with
      eligible := false, status := "rejected", message := "Customer not found",
      reason := some "Customer ID invalid" }
  | some c =>
    -- credit_score = customer.get("credit_score", 0); the key is present iff
    -- a KYC record was merged, and its value may itself be null
    let credit_score0 : Option ℤ :=
      match c.credit_score with
      | none => some 0
      | some v => v
    -- `if not credit_score:` — both None and 0 are falsy
    let credit_score1 : Option ℤ :=
      if credit_score0 = some 0 ∨ credit_score0 = none then
        let cr := fetch_credit_score env customer_id
        if cr.success then cr.credit_score else credit_score0
      else credit_score0
    match credit_score1 with
    | none => none  -- `None < 700` raises TypeError
    | some score =>
      let L := c.pre_approved_limit
      if score < 700 then
        some { EligibilityResult.base with
          eligible := false, status := "rejected",
          message := "Loan application rejected",
          reason := some s!"Credit score {score} is below minimum requirement of 700",
          credit_score := some score, pre_approved_limit := some L }
      else if L > 0 ∧ requested_amount > 2 * L then
        let maxE := 2 * L
        some { EligibilityResult.base with
          eligible := false, status := "rejected",
          message := "Loan application rejected",
          reason := some s!"Requested amount ₹{requested_amount} exceeds maximum eligible limit of ₹{maxE}",
          requested_amount := some requested_amount,
          pre_approved_limit := some L, max_eligible := some maxE }
      else if requested_amount ≤ L then
        let ir := get_interest_rate env score requested_amount
        let er := calculate_emi requested_amount tenure_months ir
        match er.emi with
        | none => none  -- emi_result["emi"] raises KeyError
        | some e => some { EligibilityResult.base with
            eligible := true, status := "approved",
            message := "Loan approved instantly",
            requested_amount := some requested_amount,
            pre_approved_limit := some L, credit_score := some score,
            interest_rate := some ir, tenure_months := some tenure_months,
            emi := some e, approval_type := some "instant" }
      else
        let ir := get_interest_rate env score requested_amount
        let er := calculate_emi requested_amount tenure_months ir
        match er.emi with
        | none => none  -- emi_result["emi"] raises KeyError
        | some e =>
          match c.salary with
          | none => some { EligibilityResult.base with
              eligible := true, status := "conditionally_approved",
              message := "Loan conditionally approved - salary slip verification required",
              requested_amount := some requested_amount,
              pre_approved_limit := some L, credit_score := some score,
              interest_rate := some ir, tenure_months := some tenure_months,
              emi := some e, approval_type := some "conditional",
              requires_salary_slip := some true }
          | some y =>
            let maxEmi := y * (1/2)
            if e ≤ maxEmi then
              some { EligibilityResult.base with
                eligible := true, status := "conditionally_approved",
                message := "Loan conditionally approved - salary slip verification required",
                requested_amount := some requested_amount,
                pre_approved_limit := some L, credit_score := some score,
                interest_rate := some ir, tenure_months := some tenure_months,
                emi := some e, salary := some y,
                max_allowable_emi := some maxEmi,
                approval_type := some "conditional",
                requires_salary_slip := some true }
            else
              some { EligibilityResult.base with
                eligible := false, status := "rejected",
                message := "Loan application rejected",
                reason := some s!"EMI ₹{e} exceeds 50% of salary (₹{maxEmi})",
                requested_amount := some requested_amount,
                emi := some e, salary := some y,
                max_allowable_emi := some maxEmi }

/-- The per-offer dict built by services.py:722 `get_offers_for_credit_score`. -/
structure FormattedOffer where
  name : String
  min_credit_score : ℤ
  max_credit_score : ℤ
  min_amount : ℚ
  max_amount : ℚ
  min_tenure_months : ℤ
  max_tenure_months : ℤ
  base_rate : Option ℚ
  processing_fee_pct : ℚ
deriving Repr, DecidableEq

/-- services.py:766: formatting of one template row. -/
def formatOffer (o : OfferTemplate) : FormattedOffer :=
  { name := o.name.getD "Personal Loan"
    min_credit_score := o.min_credit_score
    max_credit_score := o.max_credit_score
    min_amount := o.min_amount
    max_amount := o.max_amount
    min_tenure_months := o.min_tenure_months.getD 12
    max_tenure_months := o.max_tenure_months.getD 60
    base_rate := o.base_rate
    processing_fee_pct := o.processing_fee_pct.getD 3.5 }

/-- Mongo `sort("base_rate", 1)`: ascending by `base_rate`, a missing key
sorting before any number. -/
def rateLE (a b : OfferTemplate) : Bool :=
  match a.base_rate, b.base_rate with
  | none, _ => true
  | some _, none => false
  | some x, some y => decide (x ≤ y)

/-- Result dict of services.py:722 `get_offers_for_credit_score`. -/
structure OffersResult where
  success : Bool
  credit_score : ℤ
  total_offers : ℕ
  best_offer : Option FormattedOffer
  all_offers : List FormattedOffer
  message : String
deriving Repr, DecidableEq

/-- services.py:722 `get_offers_for_credit_score`: query with the optional
amount filter (`if loan_amount:` — `None` and `0` both skip it), retry
without it, then a synthesized default offer from the fixed rate ladder. -/
def get_offers_for_credit_score (env : Env) (credit_score : ℤ)
    (loan_amount : Option ℚ := none) : OffersResult :=
  let amtFilter : Bool := match loan_amount with
                          | some a => decide (a ≠ 0)
                          | none => false
  let offers1 := stableSortBy rateLE (env.offer_templates.filter
    (fun o => offerMatchesScore o credit_score &&
      (if amtFilter then offerMatchesAmount o (loan_amount.getD 0) else true)))
  let offers :=
    if offers1.isEmpty then
      stableSortBy rateLE (env.offer_templates.filter (fun o => offerMatchesScore o credit_score))
    else offers1
  if ¬ offers.isEmpty then
    let fs := offers.map formatOffer
    let n := fs.length
    { success := true, credit_score := credit_score, total_offers := n,
      best_offer := fs.head?, all_offers := fs,
      message := s!"Found {n} offers for credit score {credit_score}" }
  else
    let pair : ℚ × String :=
      if credit_score ≥ 750 then (10.99, "excellent")
      else if credit_score ≥ 700 then (12.5, "good")
      else if credit_score ≥ 650 then (15.0, "fair")
      else (18.0, "poor")
    let category := pair.2
    let categoryTitle := pyCapitalize category
    let default_offer : FormattedOffer :=
      { name := s!"Personal Loan - {categoryTitle} Credit"
        min_credit_score := credit_score - 50
        max_credit_score := credit_score + 50
        min_amount := 50000
        max_amount := 5000000
        min_tenure_months := 12
        max_tenure_months := 60
        base_rate := some pair.1
        processing_fee_pct := 3.5 }
    { success := true, credit_score := credit_score, total_offers := 1,
      best_offer := some default_offer, all_offers := [default_offer],
      message := s!"Default offer for credit score {credit_score} (category: {category})" }

/-! ## Document intake and verification -/

/-- Python truthiness of an optional string (`None` and `""` are falsy). -/
def pyStrTruthy : Option String → Bool
  | none => false
  | some s => !(s == "")

/-- `s.count('-')`. -/
def dashCount (s : String) : ℕ := (s.data.filter (· = '-')).length

/-- Join char-list components with a dot (`"." .join`). -/
def joinWithDot : List (List Char) → List Char
  | [] => []
  | [g] => g
  | g :: gs => g ++ '.' :: joinWithDot gs

/-- `pathlib.Path(name).suffix`: the extension of the final component,
including the dot; empty for extensionless and dot-hidden names. -/
def pathSuffix (name : String) : String :=
  let base := ((splitOnChar '/' name.data).getLastD name.data)
  match (splitOnChar '.' base).reverse with
  | [] => ""
  | [_] => ""
  | ext :: stemParts =>
    if ext = [] ∨ joinWithDot stemParts.reverse = [] then ""
    else "." ++ (⟨ext⟩ : String)

/-- `update_one`: apply `f` to the first element matching `p`. -/
def updateFirst (p : α → Bool) (f : α → α) : List α → List α
  | [] => []
  | x :: xs => if p x then f x :: xs else x :: updateFirst p f xs

/-- `update_one(..., upsert=True)` with a full replacement document:
replace the first match, or append. -/
def upsertFirst (p : α → Bool) (newVal : α) : List α → List α
  | [] => [newVal]
  | x :: xs => if p x then newVal :: xs else x :: upsertFirst p newVal xs

/-- A record of the `documents` collection (models.py `Document`).
`uploaded_at`/`verified_at` are abstract tick counts standing for the
wall-clock timestamps. -/
structure Doc where
  _id : Nat
  session_id : String
  doc_id : String
  doc_name : String
  original_filename : String
  file_path : String
  file_size : ℤ
  remote : Bool
  uploaded_at : Nat
  verification_status : String
  verification_feedback : Option String
  verified_at : Option Nat
deriving Repr, DecidableEq

/-- A record of the `sessions` collection; only the fields the modelled
code reads (`session_id`, the denormalized `documents` id array, and the
metadata `conversation_stage`). -/
structure SessionRec where
  session_id : String
  documents : List Nat
  conversation_stage : Option String
deriving Repr, DecidableEq

/-- document_service.py:116 `get_documents_by_session`
(`find(...).sort("uploaded_at", 1)`). -/
def get_documents_by_session (store : List Doc) (session_id : String) : List Doc :=
  stableSortBy (fun a b => decide (a.uploaded_at ≤ b.uploaded_at))
    (store.filter (fun d => d.session_id == session_id))

/-- document_service.py:26 `create_document`.

The Document upsert (`update_one` with `$set` of every field and
`upsert=True`) is keyed on `(session_id, doc_id)` and always resets the
verification fields to pending.  The subsequent session-array update calls
`update_session(session_id, documents=...)`, but `update_session` has no
`documents` parameter, so on every path that reaches it Python raises
`TypeError` — after the Document record has already been persisted.  The
returned `Except` is the raised-vs-returned outcome; the document store is
threaded alongside it.  The sessions store is never modified (the raise
happens at the call site).  Writing the payload to disk/S3 is a filesystem
effect outside the model. -/
def create_document (sessions : List SessionRec) (store : List Doc)
    (useRemote : Bool) (bucketPrefix : String) (now : Nat) (freshId : Nat)
    (session_id doc_id doc_name original_filename : String) (file_size : ℤ) :
    Except String Doc × List Doc × List SessionRec :=
  match sessions.find? (fun s => s.session_id == session_id) with
  | none => (.error s!"Session {session_id} not found", store, sessions)
  | some session =>
    let existing := store.find? (fun d => d.session_id == session_id && d.doc_id == doc_id)
    let doc_id_obj := match existing with
                      | some e => e._id
                      | none => freshId
    let file_ext := pathSuffix original_filename
    let file_path := if useRemote then
        bucketPrefix ++ "/" ++ session_id ++ "/" ++ doc_id ++ file_ext
      else session_id ++ "/" ++ doc_id ++ file_ext
    let doc : Doc :=
      { _id := doc_id_obj, session_id := session_id, doc_id := doc_id,
        doc_name := doc_name, original_filename := original_filename,
        file_path := file_path, file_size := file_size, remote := useRemote,
        uploaded_at := now, verification_status := "pending",
        verification_feedback := none, verified_at := none }
    let store' := upsertFirst
      (fun d => d.session_id == session_id && d.doc_id == doc_id) doc store
    if session.documents.all (fun did => !(toString did == toString doc_id_obj)) then
      -- `update_session(session_id, documents=...)`: unexpected keyword
      -- argument, raises TypeError before touching the sessions store
      (.error "update_session() got an unexpected keyword argument 'documents'",
       store', sessions)
    else
      (.ok doc, store', sessions)

/-- The verdict structure expected from the vision classifier after JSON
parsing, including the fail-closed fallbacks the code substitutes when the
call or the parse fails (document_verification_service.py:324-346). -/
structure ClassifierVerdict where
  is_correct_type : Bool
  is_clear_and_readable : Bool
  is_complete : Bool
  contains_expected_fields : Bool
  overall_verification : String
  feedback : String
deriving Repr, DecidableEq

/-- The external classifier pipeline (PDF rasterization + vision call +
parse-or-fallback), out of scope per the spec, as an oracle from
`(file_path, doc_id, doc_name)` to the parsed verdict. -/
def Classifier : Type := String → String → String → ClassifierVerdict

/-- Outcome dict of document_verification_service.py:127
`verify_document_with_langchain`. -/
structure VerifOutcome where
  verified : Bool
  is_correct_type : Bool
  feedback : String
deriving Repr, DecidableEq

/-- document_verification_service.py:165: accepted upload formats. -/
def imageExts : List String := [".jpg", ".jpeg", ".png", ".gif", ".webp"]

/-- document_verification_service.py:127 `verify_document_with_langchain`:
the local extension gate, then the classifier oracle's verdict; the overall
verdict string must equal "verified" (case-insensitively) or the document
is rejected. -/
def verify_document_with_langchain (classify : Classifier)
    (file_path doc_id doc_name : String) : VerifOutcome :=
  let file_ext := pyLower (pathSuffix file_path)
  let is_image := imageExts.contains file_ext
  let is_pdf := file_ext == ".pdf"
  if ¬(is_image ∨ is_pdf) then
    { verified := false, is_correct_type := false,
      feedback := "Invalid file format. Please upload an image (JPG, PNG) or PDF file." }
  else
    let v := classify file_path doc_id doc_name
    { verified := pyLower v.overall_verification == "verified",
      is_correct_type := v.is_correct_type,
      feedback := v.feedback }

/-- Result dict of document_verification_service.py:369 `verify_document`,
also covering the `already_verified` entries the session loop appends
(keys absent from a given branch are `none`). -/
structure VerifyDocResult where
  success : Option Bool
  message : Option String
  document_id : String
  doc_id : Option String
  doc_name : Option String
  verified : Option Bool
  is_correct_type : Option Bool
  status : Option String
  feedback : Option String
deriving Repr, DecidableEq

/-- document_verification_service.py:369 `verify_document`: look up by id,
check the local file exists, classify, and persist the verified/rejected
status with feedback and timestamp. -/
def verify_document (classify : Classifier) (fileExists : String → Bool)
    (now : Nat) (store : List Doc) (document_id : String) :
    VerifyDocResult × List Doc :=
  match store.find? (fun d => toString d._id == document_id) with
  | none =>
    ({ success := some false, message := some "Document not found",
       document_id := document_id, doc_id := none, doc_name := none,
       verified := none, is_correct_type := none, status := none,
       feedback := none }, store)
  | some doc =>
    if ¬ doc.remote ∧ ¬ fileExists doc.file_path then
      ({ success := some false, message := some "Document file not found on disk",
         document_id := document_id, doc_id := none, doc_name := none,
         verified := none, is_correct_type := none, status := none,
         feedback := none }, store)
    else
      let vr := verify_document_with_langchain classify doc.file_path doc.doc_id doc.doc_name
      let newStatus := if vr.verified then "verified" else "rejected"
      let store' := updateFirst (fun d => toString d._id == document_id)
        (fun d =>
          { d with verification_status := newStatus,
                   verification_feedback := some vr.feedback,
                   verified_at := if vr.verified then some now else none }) store
      ({ success := some true, message := none, document_id := document_id,
         doc_id := some doc.doc_id, doc_name := some doc.doc_name,
         verified := some vr.verified, is_correct_type := some vr.is_correct_type,
         status := none, feedback := some vr.feedback }, store')

/-- Result dict of document_verification_service.py:434
`verify_session_documents`.  In the zero-documents branch only
`success`/`message`/`session_id`/`results` are present: there is no
`all_verified` key (callers reading it with `.get("all_verified", False)`
see `False`). -/
structure SessionVerifyResult where
  success : Bool
  message : Option String
  session_id : String
  all_verified : Option Bool
  results : List VerifyDocResult
  total_documents : Option ℕ
  verified_count : Option ℕ
  rejected_count : Option ℕ
deriving Repr, DecidableEq

/-- document_verification_service.py:434 `verify_session_documents`:
re-verify every not-yet-verified document of the session and aggregate. -/
def verify_session_documents (classify : Classifier) (fileExists : String → Bool)
    (now : Nat) (store : List Doc) (session_id : String) :
    SessionVerifyResult × List Doc :=
  let documents := get_documents_by_session store session_id
  if documents.isEmpty then
    ({ success := false, message := some "No documents found for this session",
       session_id := session_id, all_verified := none, results := [],
       total_documents := none, verified_count := none, rejected_count := none },
     store)
  else
    let step := fun (acc : List VerifyDocResult × Bool × List Doc) (doc : Doc) =>
      let (results, all_verified, st) := acc
      if doc.verification_status == "verified" then
        (results ++ [{ success := none, message := none,
                       document_id := toString doc._id,
                       doc_id := some doc.doc_id, doc_name := some doc.doc_name,
                       verified := some true, is_correct_type := none,
                       status := some "already_verified",
                       feedback := some "Document was already verified" }],
         all_verified, st)
      else
        let (vr, st') := verify_document classify fileExists now st (toString doc._id)
        (results ++ [vr],
         if ¬ (vr.verified.getD false) then false else all_verified, st')
    let out := documents.foldl step ([], true, store)
    ({ success := true, message := none, session_id := session_id,
       all_verified := some out.2.1, results := out.1,
       total_documents := some documents.length,
       verified_count := some (out.1.countP (fun r => r.verified.getD false)),
       rejected_count := some (out.1.countP (fun r => ¬ (r.verified.getD false))) },
     out.2.2)

/-! ## Document status helper and sanction issuance (main.py / services.py) -/

/-- One entry of the `documents` list in the status dict (main.py:717). -/
structure DocStatusEntry where
  doc_id : String
  doc_name : String
  status : String
  feedback : Option String
deriving Repr, DecidableEq

/-- Result dict of main.py:673 `_check_document_verification_status_internal`.
Unlike `verify_session_documents`, every branch of this helper carries an
`all_verified` key. -/
structure DocStatusData where
  success : Bool
  message : String
  documents : Option (List DocStatusEntry)
  all_verified : Bool
  verified_count : Option ℕ
  pending_count : Option ℕ
  rejected_count : Option ℕ
deriving Repr, DecidableEq

/-- main.py:673 `_check_document_verification_status_internal`: resolve the
session id (falling back to the global current session when the argument is
missing or not UUID-shaped), then count the stored document statuses. -/
def checkDocStatusInternal (currentSessionId : Option String) (store : List Doc)
    (session_id0 : Option String) : DocStatusData :=
  let argLooksValid := pyStrTruthy session_id0 &&
    decide (pyLen (session_id0.getD "") ≥ 30) &&
    decide (dashCount (session_id0.getD "") ≥ 4)
  let resolved : Option String :=
    if argLooksValid then session_id0
    else if pyStrTruthy currentSessionId then currentSessionId
    else none
  match resolved with
  | none =>
    { success := false,
      message := "Session ID not available. Please ensure you're in an active session.",
      documents := none, all_verified := false,
      verified_count := none, pending_count := none, rejected_count := none }
  | some sid =>
    let documents := get_documents_by_session store sid
    if documents.isEmpty then
      { success := true, message := "No documents uploaded yet",
        documents := some [], all_verified := false,
        verified_count := some 0, pending_count := some 0, rejected_count := some 0 }
    else
      let entries := documents.map (fun d =>
        ({ doc_id := d.doc_id, doc_name := d.doc_name,
           status := d.verification_status,
           feedback := d.verification_feedback } : DocStatusEntry))
      let pending := (documents.filter (fun d => d.verification_status == "pending")).length
      let verified := (documents.filter (fun d => d.verification_status == "verified")).length
      let rejected := (documents.filter (fun d => d.verification_status == "rejected")).length
      -- the loop flag starts true and is cleared by any pending/rejected doc
      let all_verified := documents.all (fun d =>
        !(d.verification_status == "pending") && !(d.verification_status == "rejected"))
      let message := s!"Document Status:\n- Verified: {verified}\n- Pending: {pending}\n- Rejected: {rejected}\n" ++
        (if all_verified ∧ verified > 0 then "\n✅ All documents are verified and ready!"
         else if rejected > 0 then "\n❌ Some documents were rejected. Please reupload."
         else if pending > 0 then "\n⏳ Some documents are pending verification."
         else "")
      { success := true, message := message, documents := some entries,
        all_verified := all_verified, verified_count := some verified,
        pending_count := some pending, rejected_count := some rejected }

/-- Bank detail dict passed into the sanction services. -/
structure BankDetails where
  account_number : String
  ifsc_code : String
  account_holder_name : String
  bank_name : Option String
deriving Repr, DecidableEq

/-- A record of the `sanctions` collection (services.py:964 `sanction_doc`).
`created_at`/`updated_at` wall-clock stamps are omitted. -/
structure Sanction where
  _id : Nat
  customer_id : String
  session_id : Option String
  customer_name : Option String
  loan_amount : ℚ
  tenure_months : ℤ
  interest_rate : ℚ
  emi : ℚ
  total_amount : ℚ
  total_interest : ℚ
  processing_fee : ℚ
  processing_fee_pct : ℚ
  bank_details : BankDetails
  validity_days : ℕ
  status : String
  sanction_id : Option String
deriving Repr, DecidableEq

/-- Result dict of services.py:921 `create_sanction`. -/
structure CreateSanctionResult where
  success : Bool
  sanction_id : Option String
  message : String
deriving Repr, DecidableEq

/-- services.py:921 `create_sanction`: insert the sanction record, then
mirror the generated id back into it.  When `calculate_emi` failed,
`emi_result["emi"]` raises `KeyError('emi')` inside the `try`, so the
except-branch returns a failure and nothing is inserted. -/
def create_sanction (env : Env) (sanctions : List Sanction) (freshId : Nat)
    (customer_id : String) (loan_amount : ℚ) (tenure_months : ℤ)
    (interest_rate : ℚ) (bank_details : BankDetails)
    (session_id : Option String) (customer_name : Option String) :
    CreateSanctionResult × List Sanction :=
  let emi_result := calculate_emi loan_amount tenure_months interest_rate
  match emi_result.emi, emi_result.total_amount, emi_result.total_interest with
  | some e, some ta, some ti =>
    -- `if not customer_name:` — None and "" both trigger the lookup
    let cname : Option String :=
      if pyStrTruthy customer_name then customer_name
      else (get_customer_by_id env customer_id).bind (·.name)
    let processing_fee_pct : ℚ := 3.5
    let processing_fee := loan_amount * (processing_fee_pct / 100)
    let doc : Sanction :=
      { _id := freshId, customer_id := customer_id, session_id := session_id,
        customer_name := cname, loan_amount := loan_amount,
        tenure_months := tenure_months, interest_rate := interest_rate,
        emi := e, total_amount := ta, total_interest := ti,
        processing_fee := processing_fee,
        processing_fee_pct := processing_fee_pct,
        bank_details :=
          { account_number := bank_details.account_number,
            ifsc_code := pyUpper bank_details.ifsc_code,
            account_holder_name := bank_details.account_holder_name,
            bank_name := bank_details.bank_name },
        validity_days := 30, status := "active", sanction_id := none }
    let sid := toString freshId
    let s1 := sanctions ++ [doc]
    let s2 := updateFirst (fun s => s._id == freshId)
      (fun s => { s with sanction_id := some sid }) s1
    ({ success := true, sanction_id := some sid,
       message := "Sanction created successfully" }, s2)
  | _, _, _ =>
    ({ success := false, sanction_id := none,
       message := "Error creating sanction: 'emi'" }, sanctions)

/-- Result dict of services.py:1018 `generate_sanction_letter` (and of the
main.py tool wrapping it).  The success dict carries no `message` and no
`sanction_id` key; the boilerplate `terms_and_conditions`/`summary`
presentation text is omitted. -/
structure SanctionLetterResult where
  success : Bool
  message : Option String
  customer_id : Option String
  customer_name : Option String
  loan_amount : Option ℚ
  tenure_months : Option ℤ
  interest_rate : Option ℚ
  emi : Option ℚ
  total_amount : Option ℚ
  total_interest : Option ℚ
  processing_fee : Option ℚ
  processing_fee_pct : Option ℚ
  disbursement_account : Option String
  masked_account_number : Option String
  ifsc_code : Option String
  account_holder_name : Option String
  bank_name : Option String
deriving Repr, DecidableEq

/-- A `SanctionLetterResult` that is only a failure message. -/
def SanctionLetterResult.fail (msg : String) : SanctionLetterResult :=
  { success := false, message := some msg, customer_id := none,
    customer_name := none, loan_amount := none, tenure_months := none,
    interest_rate := none, emi := none, total_amount := none,
    total_interest := none, processing_fee := none, processing_fee_pct := none,
    disbursement_account := none, masked_account_number := none,
    ifsc_code := none, account_holder_name := none, bank_name := none }

/-- services.py:1018 `generate_sanction_letter`: customer lookup, bank
detail validation, sanction record creation, then the letter dict.
(The `customer.get("name", "Valued Customer")` default is dead code: the
`name` key is always present on `_build_customer_data` output.) -/
def generate_sanction_letter (env : Env) (sanctions : List Sanction)
    (freshId : Nat) (customer_id : String) (loan_amount : ℚ)
    (tenure_months : ℤ) (interest_rate : ℚ)
    (bank_details : Option BankDetails) (session_id : Option String) :
    SanctionLetterResult × List Sanction :=
  match get_customer_by_id env customer_id with
  | none => (.fail "Customer not found", sanctions)
  | some customer =>
    let emi_result := calculate_emi loan_amount tenure_months interest_rate
    let customer_name := customer.name
    match bank_details with
    | none => (.fail "Bank details are required to generate sanction letter", sanctions)
    | some bd =>
      let missing :=
        (if bd.account_number = "" then ["account_number"] else []) ++
        (if bd.ifsc_code = "" then ["ifsc_code"] else []) ++
        (if bd.account_holder_name = "" then ["account_holder_name"] else [])
      if missing ≠ [] then
        let ms := String.intercalate ", " missing
        (.fail s!"Missing required bank details: {ms}", sanctions)
      else
        let out := create_sanction env sanctions freshId customer_id
          loan_amount tenure_months interest_rate bd session_id customer_name
        let sanction_result := out.1
        let sanctions' := out.2
        if ¬ sanction_result.success then
          let m := sanction_result.message
          (.fail s!"Failed to create sanction record: {m}", sanctions')
        else
          match emi_result.emi, emi_result.total_amount, emi_result.total_interest with
          | some e, some ta, some ti =>
            let account_number := bd.account_number
            let masked_account :=
              if pyLen account_number > 4 then "****" ++ pyTakeRight account_number 4
              else "****"
            let holder := bd.account_holder_name
            let ifsc := bd.ifsc_code
            let processing_fee_pct : ℚ := 3.5
            let processing_fee := loan_amount * (processing_fee_pct / 100)
            ({ success := true, message := none,
               customer_id := some customer_id, customer_name := customer_name,
               loan_amount := some loan_amount,
               tenure_months := some tenure_months,
               interest_rate := some interest_rate,
               emi := some e, total_amount := some ta, total_interest := some ti,
               processing_fee := some processing_fee,
               processing_fee_pct := some processing_fee_pct,
               disbursement_account := some s!"{holder} - {masked_account} ({ifsc})",
               masked_account_number := some masked_account,
               ifsc_code := some bd.ifsc_code,
               account_holder_name := some bd.account_holder_name,
               bank_name := bd.bank_name }, sanctions')
          | _, _, _ =>
            -- unreachable when `create_sanction` succeeded on the same
            -- inputs: Python would raise KeyError here (after the insert),
            -- caught by the outer except
            (.fail "Error generating sanction letter: 'emi'", sanctions')

/-! ## The sanction-letter agent tool (main.py:783) -/

/-- The mutable state the tool reads and writes: the reference stores, the
document/sanction/session collections, and the module globals
`current_session_id` / `session_state["conversation_stage"]`. -/
structure AgentState where
  env : Env
  documents : List Doc
  sanctions : List Sanction
  sessions : List SessionRec
  currentSessionId : Option String
  conversationStage : Option String
deriving Repr

/-- main.py:1814 `sync_session_to_db`: persist the in-memory stage into the
session record (no-op without a current session id; `update_session` only
copies a truthy stage). -/
def syncSessionToDb (st : AgentState) : AgentState :=
  match st.currentSessionId with
  | none => st
  | some sid =>
    if pyStrTruthy st.conversationStage then
      let sessions' := updateFirst (fun s => s.session_id == sid)
        (fun s => { s with conversation_stage := st.conversationStage }) st.sessions
      { st with sessions := sessions' }
    else st

/-- Printable form of the stage for the f-string in the stage-gate message
(`None` when the key is missing/null, as Python would print). -/
def stageRepr : Option String → String
  | none => "None"
  | some s => s

/-- main.py:783 `generate_loan_sanction_letter` (the agent tool): the four
gates — customer lookup, conversation stage, document verification (only
checked when a current session id is set), bank details — then the
`generate_sanction_letter` service, and on success the stage advance to
"sanction". -/
def generate_loan_sanction_letter (st : AgentState) (freshId : Nat)
    (customer_id : String) (loan_amount : ℚ) (tenure_months : ℤ)
    (interest_rate : ℚ)
    (account_number : String := "") (ifsc_code : String := "")
    (account_holder_name : String := "") (bank_name : String := "") :
    SanctionLetterResult × AgentState :=
  match get_customer_by_id st.env customer_id with
  | none =>
    (.fail "Cannot generate sanction letter: Customer not found or KYC not verified. Please complete KYC verification first.", st)
  | some _ =>
    let conversation_stage := st.conversationStage
    if conversation_stage ≠ some "underwriting" ∧ conversation_stage ≠ some "sanction" then
      let sr := stageRepr conversation_stage
      (.fail s!"Cannot generate sanction letter: Loan approval not confirmed. Current stage: {sr}. Please complete underwriting and get loan approval first.", st)
    else
      let status_data := checkDocStatusInternal st.currentSessionId st.documents st.currentSessionId
      -- `if current_session_id:` — the document gate is skipped entirely
      -- when no current session id is set
      if pyStrTruthy st.currentSessionId ∧ ¬ status_data.all_verified then
        let pending := status_data.pending_count.getD 0
        let rejected := status_data.rejected_count.getD 0
        (.fail s!"Cannot generate sanction letter: Documents verification incomplete. Pending: {pending}, Rejected: {rejected}. Please verify all documents first.", st)
      else if account_number = "" ∨ ifsc_code = "" ∨ account_holder_name = "" then
        (.fail "Cannot generate sanction letter: Bank account details are required. Please provide account_number, ifsc_code, and account_holder_name.", st)
      else
        let bank_details : BankDetails :=
          { account_number := account_number,
            ifsc_code := pyStrip (pyUpper ifsc_code),
            account_holder_name := account_holder_name,
            bank_name := if bank_name ≠ "" then some bank_name else none }
        let out := generate_sanction_letter st.env st.sanctions freshId
          customer_id loan_amount tenure_months interest_rate
          (some bank_details) st.currentSessionId
        let result := out.1
        let st1 := { st with sanctions := out.2 }
        if result.success then
          (result, syncSessionToDb { st1 with conversationStage := some "sanction" })
        else
          (result, st1)

/-! ## Derived predicates -/

/-- The PAN format rule of services.py:274-283: exactly 10 characters,
first 5 alphabetic, next 4 numeric, last 1 alphabetic (after
uppercase+strip, which the caller applies). -/
def panFormatOk (panU : String) : Bool :=
  pyLen panU = 10 &&
  (panU.data.take 5).all Char.isAlpha &&
  ((panU.data.drop 5).take 4).all Char.isDigit &&
  ((panU.data.drop 9).take 1).all Char.isAlpha

/-- At most one document record per `(session_id, doc_id)` key. -/
def atMostOnePerKey (store : List Doc) : Prop :=
  store.Pairwise (fun a b => ¬(a.session_id = b.session_id ∧ a.doc_id = b.doc_id))

/-- One upload request (the arguments of `create_document`, with the fresh
object id and the timestamp it would draw). -/
structure Upload where
  now : Nat
  freshId : Nat
  session_id : String
  doc_id : String
  doc_name : String
  original_filename : String
  file_size : ℤ
deriving Repr, DecidableEq

/-- The document store after one `create_document` call (a failed call —
unknown session, or the session-array `TypeError` — leaves whatever the
call had already persisted). -/
def applyUpload (sessions : List SessionRec) (useRemote : Bool)
    (bucketPrefix : String) (store : List Doc) (u : Upload) : List Doc :=
  (create_document sessions store useRemote bucketPrefix u.now u.freshId
    u.session_id u.doc_id u.doc_name u.original_filename u.file_size).2.1

/-! ## Sample data (used by the witness theorems) -/

/-- Customer with a KYC score of 780 and no salary on file. -/
def sampleUser1 : User :=
  { _id := 1, phone := some "9876543210", name := some "Asha Rao",
    dob := some "1990-01-01", pre_approved_limit := some 500000, salary := none }

/-- Customer with a KYC score of 650. -/
def sampleUser2 : User :=
  { _id := 2, phone := some "9876543211", name := some "Vikram Shah",
    dob := some "1985-05-05", pre_approved_limit := some 500000,
    salary := some 80000 }

/-- Customer with a KYC score of 780 and a salary on file. -/
def sampleUser3 : User :=
  { _id := 3, phone := some "9876543212", name := some "Meera Iyer",
    dob := some "1992-02-02", pre_approved_limit := some 500000,
    salary := some 80000 }

/-- KYC row for `sampleUser1`. -/
def sampleKyc1 : Kyc :=
  { _id := 1, phone := some "9876543210", pan := some "ABCDE1234F",
    name := some "Asha Rao", dob := some "1990-01-01",
    address := some "Mumbai", credit_score := some 780 }

/-- KYC row for `sampleUser2`. -/
def sampleKyc2 : Kyc :=
  { _id := 2, phone := some "9876543211", pan := some "FGHIJ5678K",
    name := some "Vikram Shah", dob := some "1985-05-05",
    address := some "Pune", credit_score := some 650 }

/-- KYC row for `sampleUser3`. -/
def sampleKyc3 : Kyc :=
  { _id := 3, phone := some "9876543212", pan := some "LMNOP9012Q",
    name := some "Meera Iyer", dob := some "1992-02-02",
    address := some "Delhi", credit_score := some 780 }

/-- Reference stores with the three sample customers and no offer
templates (so the rate fallbacks apply). -/
def sampleEnv : Env :=
  { users := [sampleUser1, sampleUser2, sampleUser3],
    kycs := [sampleKyc1, sampleKyc2, sampleKyc3],
    offer_templates := [] }

/-- A second, different environment (for environment-independence
witnesses). -/
def sampleEnv2 : Env := { users := [], kycs := [], offer_templates := [] }

/-- A session record for the upload witnesses. -/
def sampleSession : SessionRec :=
  { session_id := "11111111-2222-3333-4444-555555555555", documents := [],
    conversation_stage := some "underwriting" }

/-- A pending uploaded document for that session. -/
def samplePendingDoc : Doc :=
  { _id := 10, session_id := "11111111-2222-3333-4444-555555555555",
    doc_id := "identity_proof", doc_name := "Identity Proof",
    original_filename := "aadhaar.jpg",
    file_path := "11111111-2222-3333-4444-555555555555/identity_proof.jpg",
    file_size := 51200, remote := false, uploaded_at := 1,
    verification_status := "pending", verification_feedback := none,
    verified_at := none }

/-- Tool state: customer identified, stage `underwriting`, one pending
document, nothing sanctioned yet. -/
def sampleState : AgentState :=
  { env := sampleEnv, documents := [samplePendingDoc], sanctions := [],
    sessions := [sampleSession],
    currentSessionId := some "11111111-2222-3333-4444-555555555555",
    conversationStage := some "underwriting" }

/-- A classifier oracle that accepts everything (for witnesses). -/
def acceptAllClassifier : Classifier :=
  fun _ _ _ =>
    { is_correct_type := true, is_clear_and_readable := true,
      is_complete := true, contains_expected_fields := true,
      overall_verification := "verified", feedback := "Looks good" }

/-! ## Helper lemmas -/

/-- Rounding to 2 decimals moves a rational by at most half a cent. -/
theorem abs_round2_sub (x : ℚ) : |round2 x - x| ≤ 1 / 200 := by
  have h := abs_sub_round (100 * x)
  rw [abs_sub_comm] at h
  have h100 : |round2 x - x| = |((round (100 * x) : ℤ) : ℚ) - 100 * x| / 100 := by
    rw [round2, ← abs_of_pos (show (0:ℚ) < 100 by norm_num), ← abs_div]
    congr 1
    field_simp
  rw [h100]
  calc |((round (100 * x) : ℤ) : ℚ) - 100 * x| / 100 ≤ (1 / 2) / 100 := by
        apply div_le_div_of_nonneg_right h
        norm_num
      _ = 1 / 200 := by norm_num

/-- A 2-decimal rounding, scaled by 100, is an integer. -/
theorem round2_scaled_den (x : ℚ) : (100 * round2 x).den = 1 := by
  have : (100 : ℚ) * round2 x = ((round (100 * x) : ℤ) : ℚ) := by
    rw [round2, mul_comm, div_mul_cancel₀]
    norm_num
  rw [this, Rat.den_intCast]

/-- Rounding commutes with subtracting a whole-cent amount. -/
theorem round2_sub_wholecent (x p : ℚ) (hp : (100 * p).den = 1) :
    round2 (x - p) = round2 x - p := by
  have hint : ((100 * p).num : ℚ) = 100 * p := by
    conv_rhs => rw [← Rat.num_div_den (100 * p), hp]
    simp
  rw [round2, round2, mul_sub, ← hint, round_sub_int]
  push_cast
  rw [hint]
  ring

/-- Stable insertion keeps the same elements. -/
theorem insertLe_perm (le : α → α → Bool) (x : α) (l : List α) :
    (insertLe le x l).Perm (x :: l) := by
  induction l with
  | nil => simp [insertLe]
  | cons y ys ih =>
    rw [insertLe]
    split
    · exact ((ih.cons y).trans (List.Perm.swap x y ys))
    · exact List.Perm.refl _

/-- Sorting the empty list. -/
theorem stableSortBy_nil (le : α → α → Bool) : stableSortBy le ([] : List α) = [] :=
  rfl

/-- The stable sort is a permutation of its input. -/
theorem stableSortBy_perm (le : α → α → Bool) (l : List α) :
    (stableSortBy le l).Perm l := by
  induction l with
  | nil => exact List.Perm.refl _
  | cons x xs ih =>
    rw [stableSortBy]
    exact (insertLe_perm le x (stableSortBy le xs)).trans (ih.cons x)

/-! ## Claim C5 -/

/-- Claim C5: whenever `principal ≤ 0` or `tenure_months ≤ 0` or
`interest_rate ≤ 0`, `calculate_emi` returns a failure result
(`success = false`) rather than raising, and the failure result carries no
numeric EMI (`emi` key absent). -/
theorem calculate_emi_invalid_inputs_fail (P : ℚ) (n : ℤ) (r : ℚ)
    (h : P ≤ 0 ∨ n ≤ 0 ∨ r ≤ 0) :
    (calculate_emi P n r).success = false ∧
    (calculate_emi P n r).emi = none ∧
    (calculate_emi P n r).message = some "Invalid input parameters" := by
  rw [calculate_emi, if_pos h]
  exact ⟨rfl, rfl, rfl⟩

/-- Witness for C5 at `P = -1, n = 12, r = 10`. -/
theorem calculate_emi_invalid_inputs_fail_witness :
    ((-1 : ℚ) ≤ 0 ∨ (12 : ℤ) ≤ 0 ∨ (10 : ℚ) ≤ 0) ∧
    ((calculate_emi (-1) 12 10).success = false ∧
     (calculate_emi (-1) 12 10).emi = none ∧
     (calculate_emi (-1) 12 10).message = some "Invalid input parameters") :=
  ⟨Or.inl (by norm_num),
   calculate_emi_invalid_inputs_fail (-1) 12 10 (Or.inl (by norm_num))⟩

/-! ## Claim C4 -/

unseal Rat.add Rat.mul Rat.inv Rat.sub Rat.ofScientific in
/-- Counterexample to C4 as stated.  At `P = 100000, n = 12, r = 12%` the
returned `emi` is 8884.88 and `total_amount` is 106618.55, but
`emi * n = 106618.56 ≠ total_amount` — `total_amount` is rounded from the
unrounded EMI, so the first identity fails by a cent.  At
`P = 100.001, n = 1, r = 12%` (a principal not expressible in whole
cents), `total_amount - P = 0.999 ≠ 1 = total_interest`, so the second
identity fails too. -/
theorem calculate_emi_cent_identity_counterexample :
    (0 : ℚ) < 100000 ∧ (0 : ℤ) < 12 ∧ (0 : ℚ) < 12 ∧
    (calculate_emi 100000 12 12).emi = some (222122 / 25) ∧
    (calculate_emi 100000 12 12).total_amount = some (2132371 / 20) ∧
    (222122 / 25 : ℚ) * 12 ≠ 2132371 / 20 ∧
    (0 : ℚ) < 100001 / 1000 ∧
    (calculate_emi (100001 / 1000) 1 12).total_amount = some 101 ∧
    (calculate_emi (100001 / 1000) 1 12).total_interest = some 1 ∧
    (101 : ℚ) - 100001 / 1000 ≠ 1 := by
  decide

/-- Claim C4, amended: for positive `P, n, r` the call succeeds and every
monetary output (`emi`, `total_amount`, `total_interest`) is a whole
number of cents; `emi * n` agrees with `total_amount` only to within
`(n + 1)/200` (half a cent per installment plus the final rounding), not
necessarily to the cent; and `total_amount - P = total_interest` holds
exactly whenever `P` itself is a whole number of cents. -/
theorem calculate_emi_rounding_bounds (P : ℚ) (n : ℤ) (r : ℚ)
    (hP : 0 < P) (hn : 0 < n) (hr : 0 < r) :
    (calculate_emi P n r).success = true ∧
    ∀ e t i,
      (calculate_emi P n r).emi = some e →
      (calculate_emi P n r).total_amount = some t →
      (calculate_emi P n r).total_interest = some i →
      (100 * e).den = 1 ∧ (100 * t).den = 1 ∧ (100 * i).den = 1 ∧
      |e * n - t| ≤ ((n : ℚ) + 1) / 200 ∧
      ((100 * P).den = 1 → t - P = i) := by
  have hcond : ¬(P ≤ 0 ∨ n ≤ 0 ∨ r ≤ 0) := by
    push_neg
    exact ⟨hP, hn, hr⟩
  rw [calculate_emi, if_neg hcond]
  refine ⟨rfl, ?_⟩
  intro e t i he ht hi
  simp only [Option.some.injEq] at he ht hi
  subst he ht hi
  set E : ℚ := P * (r / (12 * 100)) * (1 + r / (12 * 100)) ^ n.toNat /
    ((1 + r / (12 * 100)) ^ n.toNat - 1) with hE
  refine ⟨round2_scaled_den _, round2_scaled_den _, round2_scaled_den _, ?_, ?_⟩
  · have h1 : |round2 E - E| ≤ 1 / 200 := abs_round2_sub E
    have h2 : |E * n - round2 (E * n)| ≤ 1 / 200 := by
      rw [abs_sub_comm]
      exact abs_round2_sub (E * n)
    have hn0 : (0 : ℚ) ≤ (n : ℚ) := by positivity
    calc |round2 E * n - round2 (E * n)|
        = |(round2 E - E) * n + (E * n - round2 (E * n))| := by ring_nf
      _ ≤ |(round2 E - E) * n| + |E * n - round2 (E * n)| := abs_add _ _
      _ = |round2 E - E| * (n : ℚ) + |E * n - round2 (E * n)| := by
          rw [abs_mul, abs_of_nonneg hn0]
      _ ≤ (1 / 200) * (n : ℚ) + 1 / 200 := by
          have := mul_le_mul_of_nonneg_right h1 hn0
          linarith
      _ = ((n : ℚ) + 1) / 200 := by ring
  · intro hPden
    rw [round2_sub_wholecent (E * n) P hPden]

/-- Witness for the amended C4 at `P = 100000, n = 12, r = 12`. -/
theorem calculate_emi_rounding_bounds_witness :
    ((0 : ℚ) < 100000 ∧ (0 : ℤ) < 12 ∧ (0 : ℚ) < 12) ∧
    ((calculate_emi 100000 12 12).success = true ∧
     ∀ e t i,
       (calculate_emi 100000 12 12).emi = some e →
       (calculate_emi 100000 12 12).total_amount = some t →
       (calculate_emi 100000 12 12).total_interest = some i →
       (100 * e).den = 1 ∧ (100 * t).den = 1 ∧ (100 * i).den = 1 ∧
       |e * 12 - t| ≤ ((12 : ℚ) + 1) / 200 ∧
       ((100 * (100000 : ℚ)).den = 1 → t - 100000 = i)) :=
  ⟨⟨by norm_num, by norm_num, by norm_num⟩,
   calculate_emi_rounding_bounds 100000 12 12 (by norm_num) (by norm_num) (by norm_num)⟩

/-! ## Claim C2 -/

/-- Claim C2: a customer whose KYC credit score is below 700 is always
rejected by `check_eligibility` — for every requested amount, tenure and
pre-approved limit, the result is `status = "rejected"`,
`eligible = false`. -/
theorem check_eligibility_low_score_rejected
    (env : Env) (customer_id : String) (amount : ℚ) (tenure : ℤ)
    (u : User) (k : Kyc) (s : ℤ)
    (hu : env.users.find? (fun x => x.phone == some (normalizePhone customer_id)) = some u)
    (hk : env.kycs.find? (fun x => x.phone == some (normalizePhone customer_id)) = some k)
    (hs : k.credit_score = some s)
    (h700 : s < 700) :
    (check_eligibility env customer_id amount tenure).map
      (fun res => (res.status, res.eligible)) = some ("rejected", false) := by
  rw [check_eligibility, get_customer_by_id, hu, hk]
  simp only [buildCustomerData, Option.map_some', hs]
  by_cases h0 : s = 0
  · subst h0
    simp [fetch_credit_score, hk, hs, h700]
  · have hne : ¬(some s = some (0 : ℤ) ∨ some s = (none : Option ℤ)) := by
      simp [h0]
    rw [if_neg hne]
    simp [if_pos h700]

/-- Witness for C2: `sampleUser2` has credit score 650 and is rejected at
amount 100000, tenure 60. -/
theorem check_eligibility_low_score_rejected_witness :
    sampleEnv.users.find?
      (fun x => x.phone == some (normalizePhone "9876543211")) = some sampleUser2 ∧
    sampleEnv.kycs.find?
      (fun x => x.phone == some (normalizePhone "9876543211")) = some sampleKyc2 ∧
    sampleKyc2.credit_score = some 650 ∧ (650 : ℤ) < 700 ∧
    (check_eligibility sampleEnv "9876543211" 100000 60).map
      (fun res => (res.status, res.eligible)) = some ("rejected", false) :=
  ⟨by decide, by decide, by decide, by decide,
   check_eligibility_low_score_rejected sampleEnv "9876543211" 100000 60
     sampleUser2 sampleKyc2 650 (by decide) (by decide) (by decide) (by decide)⟩

/-! ## Claim C3 -/

/-- Claim C3: on the conditional path of `check_eligibility` (score at
least 700, `L < amount ≤ 2·L`, positive tenure, positive resolved rate):
the EMI is computed; with no salary on file the result is
`conditionally_approved` with `requires_salary_slip = true` and no salary
check; with salary `y` on file the result is `conditionally_approved`
exactly when `emi ≤ 0.5·y` and otherwise `rejected` with a reason citing
the EMI/salary ratio. -/
theorem check_eligibility_conditional_path
    (env : Env) (customer_id : String) (amount : ℚ) (tenure : ℤ)
    (u : User) (k : Kyc) (s : ℤ)
    (hu : env.users.find? (fun x => x.phone == some (normalizePhone customer_id)) = some u)
    (hk : env.kycs.find? (fun x => x.phone == some (normalizePhone customer_id)) = some k)
    (hs : k.credit_score = some s)
    (h700 : 700 ≤ s)
    (hlo : u.pre_approved_limit.getD 0 < amount)
    (hhi : amount ≤ 2 * u.pre_approved_limit.getD 0)
    (htn : 0 < tenure)
    (hr : 0 < get_interest_rate env s amount) :
    (calculate_emi amount tenure (get_interest_rate env s amount)).emi.isSome ∧
    (u.salary = none →
      (check_eligibility env customer_id amount tenure).map
        (fun r => (r.status, r.eligible, r.requires_salary_slip)) =
        some ("conditionally_approved", true, some true)) ∧
    (∀ y e, u.salary = some y →
      (calculate_emi amount tenure (get_interest_rate env s amount)).emi = some e →
      (e ≤ y * (1 / 2) →
        (check_eligibility env customer_id amount tenure).map
          (fun r => (r.status, r.eligible, r.requires_salary_slip)) =
          some ("conditionally_approved", true, some true)) ∧
      (¬ e ≤ y * (1 / 2) →
        (check_eligibility env customer_id amount tenure).map
          (fun r => (r.status, r.eligible, r.reason)) =
          some ("rejected", false,
            some ("EMI ₹" ++ toString e ++ " exceeds 50% of salary (₹" ++
              toString (y * (1 / 2)) ++ ")")))) := by
  have hL : 0 < u.pre_approved_limit.getD 0 := by linarith
  have hamt : 0 < amount := lt_trans hL hlo
  have hemi : (calculate_emi amount tenure (get_interest_rate env s amount)).emi.isSome := by
    rw [calculate_emi, if_neg]
    · rfl
    · push_neg
      exact ⟨hamt, htn, hr⟩
  refine ⟨hemi, ?_⟩
  obtain ⟨e₀, he₀⟩ := Option.isSome_iff_exists.mp hemi
  have hs0 : s ≠ 0 := by omega
  have hne : ¬(some s = some (0 : ℤ) ∨ some s = (none : Option ℤ)) := by
    simp [hs0]
  have hrun : check_eligibility env customer_id amount tenure =
      (match (calculate_emi amount tenure (get_interest_rate env s amount)).emi with
       | none => none
       | some e =>
        match u.salary with
        | none => some { EligibilityResult.base with
            eligible := true, status := "conditionally_approved",
            message := "Loan conditionally approved - salary slip verification required",
            requested_amount := some amount,
            pre_approved_limit := some (u.pre_approved_limit.getD 0),
            credit_score := some s,
            interest_rate := some (get_interest_rate env s amount),
            tenure_months := some tenure,
            emi := some e, approval_type := some "conditional",
            requires_salary_slip := some true }
        | some y =>
          if e ≤ y * (1 / 2) then
            some { EligibilityResult.base with
              eligible := true, status := "conditionally_approved",
              message := "Loan conditionally approved - salary slip verification required",
              requested_amount := some amount,
              pre_approved_limit := some (u.pre_approved_limit.getD 0),
              credit_score := some s,
              interest_rate := some (get_interest_rate env s amount),
              tenure_months := some tenure,
              emi := some e, salary := some y,
              max_allowable_emi := some (y * (1 / 2)),
              approval_type := some "conditional",
              requires_salary_slip := some true }
          else
            some { EligibilityResult.base with
              eligible := false, status := "rejected",
              message := "Loan application rejected",
              reason := some s!"EMI ₹{e} exceeds 50% of salary (₹{y * (1 / 2)})",
              requested_amount := some amount,
              emi := some e, salary := some y,
              max_allowable_emi := some (y * (1 / 2)) }) := by
    rw [check_eligibility, get_customer_by_id, hu, hk]
    simp only [buildCustomerData, Option.map_some', hs]
    rw [if_neg hne]
    simp only [if_neg (not_lt.mpr h700),
      if_neg (show ¬(u.pre_approved_limit.getD 0 > 0 ∧
          amount > 2 * u.pre_approved_limit.getD 0) by
        rintro ⟨-, h2⟩
        exact absurd hhi (not_le.mpr h2)),
      if_neg (not_le.mpr hlo)]
  refine ⟨?_, ?_⟩
  · intro hsal
    rw [hrun]
    simp only [he₀, hsal]
    rfl
  · intro y e hy he
    rw [he₀] at he
    injection he with he
    subst he
    constructor
    · intro hle
      rw [hrun]
      simp only [he₀, hy, if_pos hle]
      rfl
    · intro hgt
      rw [hrun]
      simp only [he₀, hy, if_neg hgt]
      rfl

unseal Rat.add Rat.mul Rat.inv Rat.sub Rat.ofScientific in
/-- Witness for C3: `sampleUser1` (score 780, limit 500000, no salary on
file) asking for 800000 over 12 months is conditionally approved with
`requires_salary_slip = true`. -/
theorem check_eligibility_conditional_path_witness :
    (sampleEnv.users.find?
      (fun x => x.phone == some (normalizePhone "9876543210")) = some sampleUser1 ∧
     sampleEnv.kycs.find?
      (fun x => x.phone == some (normalizePhone "9876543210")) = some sampleKyc1 ∧
     sampleKyc1.credit_score = some 780 ∧ (700 : ℤ) ≤ 780 ∧
     sampleUser1.pre_approved_limit.getD 0 < (800000 : ℚ) ∧
     (800000 : ℚ) ≤ 2 * sampleUser1.pre_approved_limit.getD 0 ∧
     (0 : ℤ) < 12 ∧ 0 < get_interest_rate sampleEnv 780 800000) ∧
    sampleUser1.salary = none ∧
    (check_eligibility sampleEnv "9876543210" 800000 12).map
      (fun r => (r.status, r.eligible, r.requires_salary_slip)) =
      some ("conditionally_approved", true, some true) := by
  have h := check_eligibility_conditional_path sampleEnv "9876543210" 800000 12
    sampleUser1 sampleKyc1 780 (by decide) (by decide) (by decide) (by decide)
    (by decide) (by decide) (by decide) (by decide)
  exact ⟨⟨by decide, by decide, by decide, by decide, by decide, by decide,
    by decide, by decide⟩, by decide, h.2.1 (by decide)⟩

/-! ## Claim C7 -/

/-- Claim C7: `verify_pan` is gated on the PAN format.  When the
uppercased, stripped input fails the 10-character 5-alpha/4-digit/1-alpha
check, the result is `verified = false` with no customer id and is
independent of the KYC store (no lookup is performed); when the format
check passes, the verdict is exactly the outcome of the KYC lookup by
PAN. -/
theorem verify_pan_format_gate (pan : String) (env env' : Env) :
    (¬ panFormatOk (pyStrip (pyUpper pan)) = true →
      verify_pan env pan = verify_pan env' pan ∧
      (verify_pan env pan).verified = false ∧
      (verify_pan env pan).customer_id = none) ∧
    (panFormatOk (pyStrip (pyUpper pan)) = true →
      (verify_pan env pan).verified =
        (get_customer_by_pan env (pyStrip (pyUpper pan))).isSome) := by
  constructor
  · intro hbad
    rw [verify_pan, verify_pan]
    by_cases hlen : pyLen (pyStrip (pyUpper pan)) ≠ 10
    · rw [if_pos hlen, if_pos hlen]
      exact ⟨rfl, rfl, rfl⟩
    · rw [if_neg hlen, if_neg hlen]
      have hchars : ¬((((pyStrip (pyUpper pan)).data.take 5).all Char.isAlpha : Prop) ∧
          ((((pyStrip (pyUpper pan)).data.drop 5).take 4).all Char.isDigit : Prop) ∧
          ((((pyStrip (pyUpper pan)).data.drop 9).take 1).all Char.isAlpha : Prop)) := by
        intro ⟨h1, h2, h3⟩
        apply hbad
        rw [panFormatOk]
        push_neg at hlen
        simp [hlen, h1, h2, h3]
      rw [if_pos hchars, if_pos hchars]
      exact ⟨rfl, rfl, rfl⟩
  · intro hok
    rw [panFormatOk] at hok
    simp only [Bool.and_eq_true, decide_eq_true_eq] at hok
    obtain ⟨⟨⟨hlen, h1⟩, h2⟩, h3⟩ := hok
    rw [verify_pan, if_neg (by simp [hlen]), if_neg (by
      intro hcon
      exact hcon ⟨h1, h2, h3⟩)]
    cases hc : get_customer_by_pan env (pyStrip (pyUpper pan)) <;> simp [hc]

/-- Witness for C7: the 9-character "ABCD1234F" fails the format gate in
every environment; "ABCDE1234F" passes it and its verdict equals the
lookup outcome. -/
theorem verify_pan_format_gate_witness :
    (¬ panFormatOk (pyStrip (pyUpper "ABCD1234F")) = true ∧
     (verify_pan sampleEnv "ABCD1234F" = verify_pan sampleEnv2 "ABCD1234F" ∧
      (verify_pan sampleEnv "ABCD1234F").verified = false ∧
      (verify_pan sampleEnv "ABCD1234F").customer_id = none)) ∧
    (panFormatOk (pyStrip (pyUpper "ABCDE1234F")) = true ∧
     (verify_pan sampleEnv "ABCDE1234F").verified =
       (get_customer_by_pan sampleEnv (pyStrip (pyUpper "ABCDE1234F"))).isSome) :=
  ⟨⟨by decide, (verify_pan_format_gate "ABCD1234F" sampleEnv sampleEnv2).1 (by decide)⟩,
   ⟨by decide, (verify_pan_format_gate "ABCDE1234F" sampleEnv sampleEnv2).2 (by decide)⟩⟩

/-! ## Claim C10 -/

/-- Claim C10: `verify_otp` verifies exactly when the submitted OTP is the
fixed test value "123456" and a customer record exists for the normalized
phone; with the correct OTP but an unknown phone it fails with the
not-found message, so OTP equality alone is not sufficient. -/
theorem verify_otp_requires_known_customer (env : Env) (phone otp : String) :
    ((verify_otp env phone otp).verified = true ↔
      (otp = "123456" ∧
       (env.users.find? (fun u => u.phone == some (normalizePhone phone))).isSome)) ∧
    (otp = "123456" →
      env.users.find? (fun u => u.phone == some (normalizePhone phone)) = none →
      (verify_otp env phone otp).verified = false ∧
      (verify_otp env phone otp).message = "Phone number not found in our database") := by
  constructor
  · rw [verify_otp]
    by_cases hotp : otp = "123456"
    · rw [if_pos hotp]
      rw [get_customer_by_phone]
      cases hf : env.users.find? (fun u => u.phone == some (normalizePhone phone)) with
      | none => simp [hotp, hf]
      | some u => simp [hotp, hf]
    · rw [if_neg hotp]
      simp [hotp]
  · intro hotp hnone
    rw [verify_otp, if_pos hotp, get_customer_by_phone, hnone]
    exact ⟨rfl, rfl⟩

/-- Witness for C10: the correct OTP with an unknown phone is refused with
the not-found message. -/
theorem verify_otp_requires_known_customer_witness :
    ("123456" : String) = "123456" ∧
    sampleEnv.users.find? (fun u => u.phone == some (normalizePhone "9999999999")) = none ∧
    ((verify_otp sampleEnv "9999999999" "123456").verified = false ∧
     (verify_otp sampleEnv "9999999999" "123456").message =
       "Phone number not found in our database") :=
  ⟨rfl, by decide,
   (verify_otp_requires_known_customer sampleEnv "9999999999" "123456").2
     rfl (by decide)⟩

/-! ## Claim C6 -/

/-- Counterexample to C6 as stated.  On a session with zero uploaded
documents, `verify_session_documents` does not return
`all_verified = false`: the returned dict carries no `all_verified` key at
all, and its own `success` flag — the error marker every other failure
path of this module uses — is `False`. -/
theorem verify_session_documents_zero_docs_counterexample :
    (verify_session_documents acceptAllClassifier (fun _ => true) 0 []
      "11111111-2222-3333-4444-555555555555").1.all_verified ≠ some false ∧
    (verify_session_documents acceptAllClassifier (fun _ => true) 0 []
      "11111111-2222-3333-4444-555555555555").1.all_verified = none ∧
    (verify_session_documents acceptAllClassifier (fun _ => true) 0 []
      "11111111-2222-3333-4444-555555555555").1.success = false := by
  decide

/-- Claim C6, amended: on every session with zero uploaded documents,
`verify_session_documents` returns normally (no exception) with the
explicit message "No documents found for this session", an empty result
list, an untouched store, and `success = false`; the `all_verified` key is
absent, so callers reading it with a `False` default observe
`all_verified = false`. -/
theorem verify_session_documents_zero_docs
    (classify : Classifier) (fileExists : String → Bool) (now : Nat)
    (store : List Doc) (session_id : String)
    (h : get_documents_by_session store session_id = []) :
    (verify_session_documents classify fileExists now store session_id).1 =
      { success := false,
        message := some "No documents found for this session",
        session_id := session_id, all_verified := none, results := [],
        total_documents := none, verified_count := none,
        rejected_count := none } ∧
    (verify_session_documents classify fileExists now store session_id).2 = store ∧
    ((verify_session_documents classify fileExists now store
        session_id).1.all_verified).getD false = false := by
  rw [verify_session_documents, h]
  exact ⟨rfl, rfl, rfl⟩

/-- Witness for the amended C6 on an empty store. -/
theorem verify_session_documents_zero_docs_witness :
    get_documents_by_session [] "s-1" = [] ∧
    ((verify_session_documents acceptAllClassifier (fun _ => true) 0 [] "s-1").1 =
      { success := false,
        message := some "No documents found for this session",
        session_id := "s-1", all_verified := none, results := [],
        total_documents := none, verified_count := none,
        rejected_count := none } ∧
     (verify_session_documents acceptAllClassifier (fun _ => true) 0 [] "s-1").2 = [] ∧
     ((verify_session_documents acceptAllClassifier (fun _ => true) 0 []
        "s-1").1.all_verified).getD false = false) :=
  ⟨by decide,
   verify_session_documents_zero_docs acceptAllClassifier (fun _ => true) 0 []
     "s-1" (by decide)⟩

/-! ## Claim C8 -/

unseal Rat.add Rat.mul Rat.inv Rat.sub Rat.ofScientific in
/-- Counterexample to C8 as stated.  With no offer templates, credit score
780 and amount 100000, the synthesized default offer carries the claimed
ladder rate 10.99%, but `get_interest_rate` (the `resolve_rate` of the
spec) falls back to a different, amount-dependent table and returns 12.0%
— so the claim's "this same fixed ladder is the fallback of resolve_rate"
is false. -/
theorem offers_ladder_is_not_rate_fallback_counterexample :
    (get_offers_for_credit_score sampleEnv2 780
      (some 100000)).best_offer.map (·.base_rate) = some (some (1099 / 100)) ∧
    get_interest_rate sampleEnv2 780 100000 = 12 ∧
    ((12 : ℚ) ≠ 1099 / 100) := by
  decide

/-- Claim C8, amended: when no active template matches the score and the
amount, the offer resolver behaves as if no amount filter had been given
(the retry without the amount filter); when no active template matches the
score at all, it synthesizes exactly one default offer with base rate
10.99% for score ≥ 750, 12.5% for ≥ 700, 15.0% for ≥ 650 and 18.0%
otherwise, a fixed 3.5% processing fee, a ±50 score band, amount band
50,000–5,000,000 and tenure band 12–60; `get_interest_rate`, however,
falls back to a different, amount-dependent table: range (10.5, 12.0) for
score ≥ 750, (12.5, 14.5) for ≥ 700, (15.0, 18.0) for ≥ 650, (18.5, 24.0)
otherwise, taking the low end for amounts ≥ 10 lakh, the midpoint for
≥ 5 lakh, and the high end below that. -/
theorem offers_fallback_behaviour (env : Env) (credit_score : ℤ) (amount : ℚ)
    (ha : amount ≠ 0)
    (h1 : env.offer_templates.filter
      (fun o => offerMatchesScore o credit_score && offerMatchesAmount o amount) = []) :
    (get_offers_for_credit_score env credit_score (some amount) =
      get_offers_for_credit_score env credit_score none) ∧
    (env.offer_templates.filter (fun o => offerMatchesScore o credit_score) = [] →
      (get_offers_for_credit_score env credit_score none).total_offers = 1 ∧
      ∀ d ∈ (get_offers_for_credit_score env credit_score none).all_offers,
        (get_offers_for_credit_score env credit_score none).best_offer = some d ∧
        d.base_rate = some (if credit_score ≥ 750 then (10.99 : ℚ)
          else if credit_score ≥ 700 then 12.5
          else if credit_score ≥ 650 then 15.0 else 18.0) ∧
        d.processing_fee_pct = 3.5 ∧
        d.min_credit_score = credit_score - 50 ∧
        d.max_credit_score = credit_score + 50 ∧
        d.min_amount = 50000 ∧ d.max_amount = 5000000 ∧
        d.min_tenure_months = 12 ∧ d.max_tenure_months = 60) ∧
    (get_interest_rate env credit_score amount =
      round2 (
        let lo : ℚ := if credit_score ≥ 750 then 10.5
          else if credit_score ≥ 700 then 12.5
          else if credit_score ≥ 650 then 15.0 else 18.5
        let hi : ℚ := if credit_score ≥ 750 then 12.0
          else if credit_score ≥ 700 then 14.5
          else if credit_score ≥ 650 then 18.0 else 24.0
        if amount ≥ 1000000 then lo
        else if amount ≥ 500000 then (lo + hi) / 2 else hi)) := by
  refine ⟨?_, ?_, ?_⟩
  · have key : (fun o => offerMatchesScore o credit_score &&
        (if amount ≠ 0 then offerMatchesAmount o amount else true))
        = (fun o => offerMatchesScore o credit_score && offerMatchesAmount o amount) := by
      funext o
      rw [if_pos ha]
    rw [get_offers_for_credit_score, get_offers_for_credit_score]
    simp only [Option.getD_some, decide_eq_true_eq, Bool.false_eq_true,
      if_false, Bool.and_true, key, h1]
    simp [stableSortBy]
  · intro h2
    rw [get_offers_for_credit_score]
    simp only [Option.getD_none, Bool.false_eq_true, if_false, Bool.and_true, h2,
      stableSortBy_nil, List.isEmpty_nil, ite_self, eq_self_iff_true, not_true,
      if_true]
    constructor
    · simp
    · intro d hd
      simp only [List.mem_singleton] at hd
      subst hd
      refine ⟨by simp, ?_, by simp, by simp, by simp, by simp, by simp, by simp, by simp⟩
      split_ifs <;> simp_all
  · rw [get_interest_rate]
    have hfind : env.offer_templates.find?
        (fun o => offerMatchesScore o credit_score && offerMatchesAmount o amount) = none := by
      rw [List.find?_eq_none]
      intro x hx hpx
      have : x ∈ env.offer_templates.filter
          (fun o => offerMatchesScore o credit_score && offerMatchesAmount o amount) :=
        List.mem_filter.mpr ⟨hx, hpx⟩
      rw [h1] at this
      exact absurd this (List.not_mem_nil x)
    rw [hfind]
    simp only [Option.none_bind]
    split_ifs <;> rfl

unseal Rat.add Rat.mul Rat.inv Rat.sub Rat.ofScientific in
/-- Witness for the amended C8 at score 780, amount 100000 on an empty
template store. -/
theorem offers_fallback_behaviour_witness :
    ((100000 : ℚ) ≠ 0 ∧
     sampleEnv2.offer_templates.filter
       (fun o => offerMatchesScore o 780 && offerMatchesAmount o 100000) = []) ∧
    (get_offers_for_credit_score sampleEnv2 780 (some 100000) =
      get_offers_for_credit_score sampleEnv2 780 none) ∧
    get_interest_rate sampleEnv2 780 100000 =
      round2 (
        let lo : ℚ := if (780 : ℤ) ≥ 750 then 10.5
          else if (780 : ℤ) ≥ 700 then 12.5
          else if (780 : ℤ) ≥ 650 then 15.0 else 18.5
        let hi : ℚ := if (780 : ℤ) ≥ 750 then 12.0
          else if (780 : ℤ) ≥ 700 then 14.5
          else if (780 : ℤ) ≥ 650 then 18.0 else 24.0
        if (100000 : ℚ) ≥ 1000000 then lo
        else if (100000 : ℚ) ≥ 500000 then (lo + hi) / 2 else hi) := by
  have h := offers_fallback_behaviour sampleEnv2 780 100000 (by norm_num) (by decide)
  exact ⟨⟨by norm_num, by decide⟩, h.1, h.2.2⟩

/-! ## Claim C9 -/

/-- Membership after an upsert: the new value or an old one. -/
theorem mem_upsertFirst {p : α → Bool} {x a : α} {l : List α}
    (h : a ∈ upsertFirst p x l) : a = x ∨ a ∈ l := by
  induction l with
  | nil =>
    simp [upsertFirst] at h
    exact Or.inl h
  | cons y ys ih =>
    rw [upsertFirst] at h
    split at h
    · rcases List.mem_cons.mp h with h' | h'
      · exact Or.inl h'
      · exact Or.inr (List.mem_cons_of_mem y h')
    · rcases List.mem_cons.mp h with h' | h'
      · exact Or.inr (h' ▸ List.mem_cons_self y ys)
      · rcases ih h' with h'' | h''
        · exact Or.inl h''
        · exact Or.inr (List.mem_cons_of_mem y h'')

/-- Whether two document records share the `(session_id, doc_id)` key. -/
def sameKey (a b : Doc) : Prop := a.session_id = b.session_id ∧ a.doc_id = b.doc_id

/-- The Boolean key filter of `create_document` decides `sameKey`. -/
theorem keyPred_eq_sameKey (doc d : Doc) :
    (d.session_id == doc.session_id && d.doc_id == doc.doc_id) = true ↔ sameKey d doc := by
  simp [sameKey]

/-- Upserting a document keyed on its own `(session_id, doc_id)` preserves
the at-most-one-record-per-key invariant. -/
theorem atMostOnePerKey_upsertFirst (store : List Doc) (doc : Doc)
    (sid did : String) (hsid : doc.session_id = sid) (hdid : doc.doc_id = did)
    (h : atMostOnePerKey store) :
    atMostOnePerKey (upsertFirst
      (fun d => d.session_id == sid && d.doc_id == did) doc store) := by
  subst hsid hdid
  induction store with
  | nil => simp [upsertFirst, atMostOnePerKey]
  | cons d rest ih =>
    rw [atMostOnePerKey, List.pairwise_cons] at h
    obtain ⟨hd, hrest⟩ := h
    rw [upsertFirst]
    split
    · rename_i hp
      rw [atMostOnePerKey, List.pairwise_cons]
      refine ⟨?_, hrest⟩
      intro y hy hsame
      have hdk : sameKey d doc := (keyPred_eq_sameKey doc d).mp hp
      exact hd y hy ⟨hdk.1.trans hsame.1, hdk.2.trans hsame.2⟩
    · rename_i hp
      rw [atMostOnePerKey, List.pairwise_cons]
      refine ⟨?_, ih hrest⟩
      intro y hy
      rcases mem_upsertFirst hy with rfl | hy'
      · intro hsame
        exact hp ((keyPred_eq_sameKey y d).mpr ⟨hsame.1, hsame.2⟩)
      · exact hd y hy'

/-- After the upsert, the key filter returns exactly the new record. -/
theorem filter_upsertFirst (store : List Doc) (doc : Doc)
    (sid did : String) (hsid : doc.session_id = sid) (hdid : doc.doc_id = did)
    (h : atMostOnePerKey store) :
    (upsertFirst (fun d => d.session_id == sid && d.doc_id == did)
        doc store).filter
      (fun d => d.session_id == sid && d.doc_id == did) = [doc] := by
  subst hsid hdid
  induction store with
  | nil => simp [upsertFirst]
  | cons d rest ih =>
    rw [atMostOnePerKey, List.pairwise_cons] at h
    obtain ⟨hd, hrest⟩ := h
    rw [upsertFirst]
    split
    · rename_i hp
      rw [List.filter_cons_of_pos (by simp)]
      have : rest.filter
          (fun d => d.session_id == doc.session_id && d.doc_id == doc.doc_id) = [] := by
        rw [List.filter_eq_nil_iff]
        intro y hy hpy
        have h1 : sameKey y doc := (keyPred_eq_sameKey doc y).mp hpy
        have h2 : sameKey d doc := (keyPred_eq_sameKey doc d).mp hp
        exact hd y hy ⟨h2.1.trans h1.1.symm, h2.2.trans h1.2.symm⟩
      rw [this]
    · rename_i hp
      rw [List.filter_cons_of_neg (by simpa using hp)]
      exact ih hrest

/-- One `create_document` keeps the invariant (a failed call leaves
whatever it already wrote, which also keeps it). -/
theorem applyUpload_preserves (sessions : List SessionRec) (useRemote : Bool)
    (bucketPrefix : String) (store : List Doc) (u : Upload)
    (h : atMostOnePerKey store) :
    atMostOnePerKey (applyUpload sessions useRemote bucketPrefix store u) := by
  rw [applyUpload, create_document]
  cases hs : sessions.find? (fun s => s.session_id == u.session_id) with
  | none => exact h
  | some srec =>
    simp only [apply_ite (fun x : Except String Doc × List Doc × List SessionRec => x.2.1),
      ite_self]
    exact atMostOnePerKey_upsertFirst store _ u.session_id u.doc_id rfl rfl h

/-- Claim C9: document storage has upsert semantics keyed on
`(session_id, doc_id)`.  (1) Any sequence of uploads starting from a store
with at most one record per key leaves at most one record per key.
(2) A single upload into an existing session leaves exactly one record for
its key, and that record has the freshly computed storage path, status
"pending", and cleared feedback/verified timestamps — in particular a
later upload for the same pair overwrites the earlier record. -/
theorem create_document_upsert_semantics (sessions : List SessionRec)
    (useRemote : Bool) (bucketPrefix : String) :
    (∀ (uploads : List Upload) (store : List Doc),
      atMostOnePerKey store →
      atMostOnePerKey (uploads.foldl (applyUpload sessions useRemote bucketPrefix) store)) ∧
    (∀ (store : List Doc) (u : Upload),
      atMostOnePerKey store →
      (sessions.find? (fun s => s.session_id == u.session_id)).isSome →
      ∃ oid,
        (applyUpload sessions useRemote bucketPrefix store u).filter
          (fun d => d.session_id == u.session_id && d.doc_id == u.doc_id) =
        [{ _id := oid, session_id := u.session_id, doc_id := u.doc_id,
           doc_name := u.doc_name, original_filename := u.original_filename,
           file_path :=
             if useRemote then
               bucketPrefix ++ "/" ++ u.session_id ++ "/" ++ u.doc_id ++
                 pathSuffix u.original_filename
             else u.session_id ++ "/" ++ u.doc_id ++ pathSuffix u.original_filename,
           file_size := u.file_size, remote := useRemote, uploaded_at := u.now,
           verification_status := "pending", verification_feedback := none,
           verified_at := none }]) := by
  constructor
  · intro uploads
    induction uploads with
    | nil => intro store h; exact h
    | cons u us ih =>
      intro store h
      rw [List.foldl_cons]
      exact ih _ (applyUpload_preserves sessions useRemote bucketPrefix store u h)
  · intro store u h hses
    obtain ⟨srec, hsrec⟩ := Option.isSome_iff_exists.mp hses
    rw [applyUpload, create_document, hsrec]
    simp only [apply_ite (fun x : Except String Doc × List Doc × List SessionRec => x.2.1),
      ite_self]
    refine ⟨(match store.find? (fun d => d.session_id == u.session_id && d.doc_id == u.doc_id) with
             | some e => e._id
             | none => u.freshId), ?_⟩
    exact filter_upsertFirst store
      { _id := (match store.find? (fun d => d.session_id == u.session_id && d.doc_id == u.doc_id) with
                | some e => e._id
                | none => u.freshId),
        session_id := u.session_id, doc_id := u.doc_id,
        doc_name := u.doc_name, original_filename := u.original_filename,
        file_path :=
          if useRemote then
            bucketPrefix ++ "/" ++ u.session_id ++ "/" ++ u.doc_id ++
              pathSuffix u.original_filename
          else u.session_id ++ "/" ++ u.doc_id ++ pathSuffix u.original_filename,
        file_size := u.file_size, remote := useRemote, uploaded_at := u.now,
        verification_status := "pending", verification_feedback := none,
        verified_at := none } u.session_id u.doc_id rfl rfl h

/-- Witness for C9: uploading twice for
`(sampleSession.session_id, "bank_statement")` leaves exactly one record,
reset to pending with the second upload's path. -/
theorem create_document_upsert_semantics_witness :
    (atMostOnePerKey [] ∧
     atMostOnePerKey
       ([⟨1, 20, "11111111-2222-3333-4444-555555555555", "bank_statement",
          "Bank Statement", "stmt1.pdf", 1000⟩,
         ⟨2, 21, "11111111-2222-3333-4444-555555555555", "bank_statement",
          "Bank Statement", "stmt2.pdf", 2000⟩].foldl
         (applyUpload [sampleSession] false "documents") [])) ∧
    (atMostOnePerKey
       (applyUpload [sampleSession] false "documents" []
         ⟨1, 20, "11111111-2222-3333-4444-555555555555", "bank_statement",
          "Bank Statement", "stmt1.pdf", 1000⟩) ∧
     ([sampleSession].find? (fun s => s.session_id ==
        "11111111-2222-3333-4444-555555555555")).isSome ∧
     ∃ oid,
       (applyUpload [sampleSession] false "documents"
         (applyUpload [sampleSession] false "documents" []
           ⟨1, 20, "11111111-2222-3333-4444-555555555555", "bank_statement",
            "Bank Statement", "stmt1.pdf", 1000⟩)
         ⟨2, 21, "11111111-2222-3333-4444-555555555555", "bank_statement",
          "Bank Statement", "stmt2.pdf", 2000⟩).filter
         (fun d => d.session_id == "11111111-2222-3333-4444-555555555555" &&
           d.doc_id == "bank_statement") =
       [{ _id := oid,
          session_id := "11111111-2222-3333-4444-555555555555",
          doc_id := "bank_statement", doc_name := "Bank Statement",
          original_filename := "stmt2.pdf",
          file_path := "11111111-2222-3333-4444-555555555555" ++ "/" ++
            "bank_statement" ++ pathSuffix "stmt2.pdf",
          file_size := 2000, remote := false, uploaded_at := 2,
          verification_status := "pending", verification_feedback := none,
          verified_at := none }]) := by
  refine ⟨⟨?_, ?_⟩, ?_, ?_, ?_⟩
  · simp [atMostOnePerKey]
  · exact (create_document_upsert_semantics [sampleSession] false "documents").1
      [⟨1, 20, "11111111-2222-3333-4444-555555555555", "bank_statement",
        "Bank Statement", "stmt1.pdf", 1000⟩,
       ⟨2, 21, "11111111-2222-3333-4444-555555555555", "bank_statement",
        "Bank Statement", "stmt2.pdf", 2000⟩] []
      (by simp [atMostOnePerKey])
  · exact applyUpload_preserves [sampleSession] false "documents" []
      ⟨1, 20, "11111111-2222-3333-4444-555555555555", "bank_statement",
       "Bank Statement", "stmt1.pdf", 1000⟩ (by simp [atMostOnePerKey])
  · decide
  · exact (create_document_upsert_semantics [sampleSession] false "documents").2 _
      ⟨2, 21, "11111111-2222-3333-4444-555555555555", "bank_statement",
       "Bank Statement", "stmt2.pdf", 2000⟩
      (applyUpload_preserves [sampleSession] false "documents" []
        ⟨1, 20, "11111111-2222-3333-4444-555555555555", "bank_statement",
         "Bank Statement", "stmt1.pdf", 1000⟩ (by simp [atMostOnePerKey]))
      (by decide)

/-! ## Claim C1 -/

/-- The document-status helper, called by the sanction tool on its own
current session id, reports `all_verified` exactly when the session has a
nonempty document list none of which is pending or rejected. -/
theorem checkDocStatusInternal_self (store : List Doc) (sid : String) (hne : sid ≠ "") :
    (checkDocStatusInternal (some sid) store (some sid)).all_verified =
      (!(get_documents_by_session store sid).isEmpty &&
       (get_documents_by_session store sid).all
         (fun d => !(d.verification_status == "pending") &&
                   !(d.verification_status == "rejected"))) := by
  have htruthy : pyStrTruthy (some sid) = true := by simp [pyStrTruthy, hne]
  rw [checkDocStatusInternal]
  simp only [Option.getD_some]
  have hres : (if (pyStrTruthy (some sid) && decide (pyLen sid ≥ 30) &&
        decide (dashCount sid ≥ 4)) = true then (some sid : Option String)
      else if pyStrTruthy (some sid) = true then some sid else none) = some sid := by
    split_ifs <;> simp_all [pyStrTruthy]
  rw [hres]
  by_cases hd : (get_documents_by_session store sid).isEmpty
  · simp only [if_pos hd]
    simp [hd]
  · simp only [if_neg hd]
    simp only [Bool.not_eq_true] at hd
    simp [hd]

/-- Claim C1: sanction issuance is all-or-nothing on its four
preconditions.  For any call of the `generate_loan_sanction_letter` tool
made with a current session set, if any of (1) customer resolvable,
(2) conversation stage `underwriting`/`sanction`, (3) the session's
documents nonempty and all verified, (4) bank details complete, fails,
then the call returns `success = false` with a message and persists no
Sanction record.  (`hwf`: the stored statuses are among the three values
the system ever writes.) -/
theorem generate_loan_sanction_letter_all_or_nothing
    (st : AgentState) (freshId : Nat) (customer_id : String)
    (loan_amount : ℚ) (tenure_months : ℤ) (interest_rate : ℚ)
    (account_number ifsc_code account_holder_name bank_name : String)
    (sid : String)
    (hsid : st.currentSessionId = some sid) (hne : sid ≠ "")
    (hwf : ∀ d ∈ get_documents_by_session st.documents sid,
      d.verification_status = "pending" ∨ d.verification_status = "verified" ∨
      d.verification_status = "rejected")
    (hfail : ¬((get_customer_by_id st.env customer_id).isSome ∧
      (st.conversationStage = some "underwriting" ∨
        st.conversationStage = some "sanction") ∧
      (get_documents_by_session st.documents sid ≠ [] ∧
        ∀ d ∈ get_documents_by_session st.documents sid,
          d.verification_status = "verified") ∧
      (account_number ≠ "" ∧ ifsc_code ≠ "" ∧ account_holder_name ≠ ""))) :
    (generate_loan_sanction_letter st freshId customer_id loan_amount
      tenure_months interest_rate account_number ifsc_code
      account_holder_name bank_name).1.success = false ∧
    (generate_loan_sanction_letter st freshId customer_id loan_amount
      tenure_months interest_rate account_number ifsc_code
      account_holder_name bank_name).1.message.isSome ∧
    (generate_loan_sanction_letter st freshId customer_id loan_amount
      tenure_months interest_rate account_number ifsc_code
      account_holder_name bank_name).2.sanctions = st.sanctions := by
  cases hc : get_customer_by_id st.env customer_id with
  | none =>
    simp only [generate_loan_sanction_letter, hc]
    exact ⟨by simp [SanctionLetterResult.fail], by simp [SanctionLetterResult.fail],
      by simp [SanctionLetterResult.fail]⟩
  | some cust =>
    simp only [generate_loan_sanction_letter, hc, hsid]
    by_cases hstage : st.conversationStage ≠ some "underwriting" ∧
        st.conversationStage ≠ some "sanction"
    · rw [if_pos hstage]
      exact ⟨by simp [SanctionLetterResult.fail], by simp [SanctionLetterResult.fail],
        by simp [SanctionLetterResult.fail]⟩
    · rw [if_neg hstage]
      by_cases hA : (checkDocStatusInternal (some sid) st.documents
          (some sid)).all_verified = true
      · rw [if_neg (by
          intro hcon
          exact hcon.2 hA)]
        by_cases hbank : account_number = "" ∨ ifsc_code = "" ∨
            account_holder_name = ""
        · rw [if_pos hbank]
          exact ⟨by simp [SanctionLetterResult.fail], by simp [SanctionLetterResult.fail],
            by simp [SanctionLetterResult.fail]⟩
        · exfalso
          push_neg at hbank hstage
          rw [checkDocStatusInternal_self st.documents sid hne] at hA
          rw [Bool.and_eq_true] at hA
          obtain ⟨hA1, hA2⟩ := hA
          apply hfail
          refine ⟨by rw [hc]; rfl, ?_, ⟨?_, ?_⟩, hbank⟩
          · by_cases hu : st.conversationStage = some "underwriting"
            · exact Or.inl hu
            · exact Or.inr (hstage hu)
          · intro hnil
            rw [hnil] at hA1
            simp at hA1
          · intro d hd
            have hpred := List.all_eq_true.mp hA2 d hd
            rw [Bool.and_eq_true] at hpred
            obtain ⟨hp, hr⟩ := hpred
            rcases hwf d hd with h | h | h
            · rw [h] at hp
              simp at hp
            · exact h
            · rw [h] at hr
              simp at hr
      · rw [if_pos ⟨by simp [pyStrTruthy, hne], fun hcon => hA hcon⟩]
        exact ⟨by simp [SanctionLetterResult.fail], by simp [SanctionLetterResult.fail],
          by simp [SanctionLetterResult.fail]⟩

unseal Rat.add Rat.mul Rat.inv Rat.sub Rat.ofScientific in
/-- Witness for C1: in `sampleState` (customer identified, stage
`underwriting`, one still-pending document) the tool refuses and stores
no sanction, even though every other precondition holds. -/
theorem generate_loan_sanction_letter_all_or_nothing_witness :
    (sampleState.currentSessionId =
      some "11111111-2222-3333-4444-555555555555" ∧
     "11111111-2222-3333-4444-555555555555" ≠ "" ∧
     (∀ d ∈ get_documents_by_session sampleState.documents
        "11111111-2222-3333-4444-555555555555",
        d.verification_status = "pending" ∨ d.verification_status = "verified" ∨
        d.verification_status = "rejected") ∧
     ¬((get_customer_by_id sampleState.env "9876543210").isSome ∧
       (sampleState.conversationStage = some "underwriting" ∨
         sampleState.conversationStage = some "sanction") ∧
       (get_documents_by_session sampleState.documents
          "11111111-2222-3333-4444-555555555555" ≠ [] ∧
        ∀ d ∈ get_documents_by_session sampleState.documents
          "11111111-2222-3333-4444-555555555555",
          d.verification_status = "verified") ∧
       (("12345678901" : String) ≠ "" ∧ ("HDFC0000123" : String) ≠ "" ∧
        ("Asha Rao" : String) ≠ ""))) ∧
    ((generate_loan_sanction_letter sampleState 77 "9876543210" 800000 12
        (45 / 4) "12345678901" "HDFC0000123" "Asha Rao" "HDFC").1.success = false ∧
     (generate_loan_sanction_letter sampleState 77 "9876543210" 800000 12
        (45 / 4) "12345678901" "HDFC0000123" "Asha Rao" "HDFC").1.message.isSome ∧
     (generate_loan_sanction_letter sampleState 77 "9876543210" 800000 12
        (45 / 4) "12345678901" "HDFC0000123" "Asha Rao" "HDFC").2.sanctions =
       sampleState.sanctions) :=
  ⟨⟨by decide, by decide, by decide, by decide⟩,
   generate_loan_sanction_letter_all_or_nothing sampleState 77 "9876543210"
     800000 12 (45 / 4) "12345678901" "HDFC0000123" "Asha Rao" "HDFC"
     "11111111-2222-3333-4444-555555555555"
     (by decide) (by decide) (by decide) (by decide)⟩

end Vittam
